import Mathlib

/-!
# Verification of the environmental-data acquisition and caching subsystem

Shallow embedding, in Lean 4, of the core of the `phantom-tracker`
repository: the location-key derivation and parsing, the weather cache,
the historical-range assembler, the provider clients for current
conditions, and the pure lunar/temporal calculators.  Conventions used
throughout:

* JS numbers are modelled as exact rationals (`ℚ`); `NaN` and
  `undefined` are modelled explicitly where they can occur.
* JS strings are modelled as `List Char` where their character structure
  matters (location keys) and as `String` where they are opaque labels.
* Calendar days are modelled as integer day numbers (days since the Unix
  epoch); an ISO `YYYY-MM-DD` date string is represented by the day
  number it denotes.  Lexicographic order on ISO date strings agrees
  with the numeric order of day numbers, so sorting by
  `localeCompare` on date strings is modelled as sorting by day number.
* Millisecond timestamps are integers; `Math.floor` and JS `Date`
  day arithmetic become `Int.ediv` by positive divisors (floor division).
* Asynchronous provider calls are modelled by explicit outcome values:
  an upstream interaction either delivers a parsed payload or fails
  (non-2xx status, network fault, or malformed body).
-/

namespace PhantomTracker

/-! ## Lunar calculator (`src/lib/environmental/lunar.ts`) -/

/-- Embedding of `getMoonPhaseName`: classifies a phase fraction through a
cascade of strict upper bounds.  The decimal literals of the source
(`0.0625`, `0.1875`, …) are written as exact rationals. -/
def getMoonPhaseName (phase : ℚ) : String :=
  if phase < 625/10000 then "new_moon"
  else if phase < 1875/10000 then "waxing_crescent"
  else if phase < 3125/10000 then "first_quarter"
  else if phase < 4375/10000 then "waxing_gibbous"
  else if phase < 5625/10000 then "full_moon"
  else if phase < 6875/10000 then "waning_gibbous"
  else if phase < 8125/10000 then "last_quarter"
  else if phase < 9375/10000 then "waning_crescent"
  else "new_moon"

/-- The eight phase-name labels in bucket order, with the wrap-around
bucket at the end mapping back to `"new_moon"`. -/
def moonPhaseLabels : List String :=
  ["new_moon", "waxing_crescent", "first_quarter", "waxing_gibbous",
   "full_moon", "waning_gibbous", "last_quarter", "waning_crescent",
   "new_moon"]

/-- The boundary fractions the claim asserts: `1/32 + k/16` for `k = 0..7`. -/
def claimedPhaseBoundaries : List ℚ :=
  (List.range 8).map (fun k => 1/32 + k/16)

/-- The boundary fractions actually used by the code: `1/16 + k/8` for
`k = 0..7` (the odd multiples of `1/16`). -/
def codePhaseBoundaries : List ℚ :=
  (List.range 8).map (fun k => 1/16 + k/8)

/-- Bucket semantics over a boundary list: the bucket index of `p` is the
number of boundaries not exceeding `p`, and the name is looked up in
`moonPhaseLabels`. -/
def phaseNameByBoundaries (bs : List ℚ) (p : ℚ) : String :=
  (moonPhaseLabels.getD (bs.countP (fun b => b ≤ p)) "new_moon")

/-! ## Temporal calculator (`calculateDaysSinceSolstice`, part_002) -/

/-- A civil (proleptic Gregorian) calendar date; `month` is 0-based as in
the JS `Date` API. -/
structure CivilDate where
  year : Int
  month : Nat
  day : Nat
deriving DecidableEq

/-- Days since 1970-01-01 of the Gregorian date `y/m1/d` with `m1`
1-based (the standard days-from-civil computation).  This models
`new Date(y, m1-1, d).getTime() / oneDay` at midnight, with the host
timezone taken to be UTC. -/
def daysFromCivil (y : Int) (m1 : Nat) (d : Nat) : Int :=
  let yadj : Int := if m1 ≤ 2 then y - 1 else y
  let era : Int := yadj / 400
  let yoe : Int := yadj - era * 400
  let mp : Int := if m1 > 2 then (m1 : Int) - 3 else (m1 : Int) + 9
  let doy : Int := (153 * mp + 2) / 5 + (d : Int) - 1
  let doe : Int := yoe * 365 + yoe / 4 - yoe / 100 + doy
  era * 146097 + doe - 719468

/-- Day number of a `CivilDate`. -/
def CivilDate.dayNumber (cd : CivilDate) : Int :=
  daysFromCivil cd.year (cd.month + 1) cd.day

def WINTER_SOLSTICE_MONTH : Nat := 11
def WINTER_SOLSTICE_DAY : Nat := 21
def SUMMER_SOLSTICE_MONTH : Nat := 5
def SUMMER_SOLSTICE_DAY : Nat := 21

/-- Embedding of `calculateDaysSinceSolstice` (part_002).  The input date
is taken at midnight, so the JS comparisons `date >= solstice` and the
floored millisecond difference divided by one day reduce to comparisons
and differences of day numbers. -/
def calculateDaysSinceSolstice (date : CivilDate) (isNorthernHemisphere : Bool) : Int :=
  let year := date.year
  let winterMonth := if isNorthernHemisphere then WINTER_SOLSTICE_MONTH else SUMMER_SOLSTICE_MONTH
  let winterDay := if isNorthernHemisphere then WINTER_SOLSTICE_DAY else SUMMER_SOLSTICE_DAY
  let summerMonth := if isNorthernHemisphere then SUMMER_SOLSTICE_MONTH else WINTER_SOLSTICE_MONTH
  let summerDay := if isNorthernHemisphere then SUMMER_SOLSTICE_DAY else WINTER_SOLSTICE_DAY
  let d := date.dayNumber
  let winterSolsticeThisYear := daysFromCivil year (winterMonth + 1) winterDay
  let winterSolsticePrevYear := daysFromCivil (year - 1) (winterMonth + 1) winterDay
  let summerSolsticeThisYear := daysFromCivil year (summerMonth + 1) summerDay
  let mostRecentSolstice : Int :=
    if summerSolsticeThisYear ≤ d then summerSolsticeThisYear
    else if winterSolsticeThisYear ≤ d then winterSolsticeThisYear
    else if winterMonth = 11 then winterSolsticePrevYear
    else summerSolsticeThisYear
  d - mostRecentSolstice

end PhantomTracker

namespace PhantomTracker

/-! ## Theorems for claims C8 and C9 -/

/-- C8: the spec claims `daysSinceSolstice` is non-negative for every date
and hemisphere, is 0 exactly on a solstice date, and rolls a January date
over to the prior December solstice.  Evaluating the embedded code refutes
this intent: in the southern hemisphere 2024-01-15 yields -341 (the code
selects this year's upcoming December solstice, which lies in the future),
and in the northern hemisphere the December solstice date 2024-12-21
itself yields 183 instead of 0 (the June branch is tested first). -/
theorem calculateDaysSinceSolstice_bug :
    calculateDaysSinceSolstice ⟨2024, 0, 15⟩ false = -341 ∧
    calculateDaysSinceSolstice ⟨2024, 0, 15⟩ false < 0 ∧
    calculateDaysSinceSolstice ⟨2024, 11, 21⟩ true = 183 := by
  refine ⟨by decide, by decide, by decide⟩

end PhantomTracker

namespace PhantomTracker

/-- C9 counterexample: `5/100` and `7/100` both lie strictly between the
first two claimed boundaries `1/32 + 0/16` and `1/32 + 1/16`, yet the
classifier assigns them different phase names; hence the bucket
boundaries of `getMoonPhaseName` are not the fractions `1/32 + k/16`. -/
theorem getMoonPhaseName_claimed_boundaries_counterexample :
    claimedPhaseBoundaries.getD 0 0 = 1/32 ∧
    claimedPhaseBoundaries.getD 1 0 = 1/32 + 1/16 ∧
    (1/32 : ℚ) ≤ 5/100 ∧ (5/100 : ℚ) < 1/32 + 1/16 ∧
    (1/32 : ℚ) ≤ 7/100 ∧ (7/100 : ℚ) < 1/32 + 1/16 ∧
    getMoonPhaseName (5/100) ≠ getMoonPhaseName (7/100) := by
  refine ⟨by norm_num [claimedPhaseBoundaries, List.range_succ],
    by norm_num [claimedPhaseBoundaries, List.range_succ],
    by norm_num, by norm_num, by norm_num, by norm_num, ?_⟩
  norm_num [getMoonPhaseName]
  decide

/-- C9 (amended): for every phase fraction, `getMoonPhaseName` realizes the
bucket semantics of the boundary list `1/16 + k/8` (the odd multiples of
`1/16`): the assigned name is the label indexed by the number of such
boundaries not exceeding the fraction, with the first and last buckets
both named `"new_moon"`. -/
theorem getMoonPhaseName_boundary_buckets (p : ℚ) :
    getMoonPhaseName p = phaseNameByBoundaries codePhaseBoundaries p := by
  have hb : codePhaseBoundaries = [1/16, 3/16, 5/16, 7/16, 9/16, 11/16, 13/16, 15/16] := by
    norm_num [codePhaseBoundaries, List.range_succ]
  unfold getMoonPhaseName phaseNameByBoundaries
  rw [hb]
  split_ifs with h1 h2 h3 h4 h5 h6 h7 h8 <;> simp only [not_lt] at *
  · simp [moonPhaseLabels, List.countP_cons,
      show ¬((16:ℚ)⁻¹ ≤ p) by rw [not_le]; rw [show ((16:ℚ)⁻¹ = 1/16) by norm_num]; linarith,
      show ¬((3:ℚ)/16 ≤ p) by rw [not_le]; linarith,
      show ¬((5:ℚ)/16 ≤ p) by rw [not_le]; linarith,
      show ¬((7:ℚ)/16 ≤ p) by rw [not_le]; linarith,
      show ¬((9:ℚ)/16 ≤ p) by rw [not_le]; linarith,
      show ¬((11:ℚ)/16 ≤ p) by rw [not_le]; linarith,
      show ¬((13:ℚ)/16 ≤ p) by rw [not_le]; linarith,
      show ¬((15:ℚ)/16 ≤ p) by rw [not_le]; linarith]
  · simp [moonPhaseLabels, List.countP_cons,
      show ((16:ℚ)⁻¹ ≤ p) by rw [show ((16:ℚ)⁻¹ = 1/16) by norm_num]; linarith,
      show ¬((3:ℚ)/16 ≤ p) by rw [not_le]; linarith,
      show ¬((5:ℚ)/16 ≤ p) by rw [not_le]; linarith,
      show ¬((7:ℚ)/16 ≤ p) by rw [not_le]; linarith,
      show ¬((9:ℚ)/16 ≤ p) by rw [not_le]; linarith,
      show ¬((11:ℚ)/16 ≤ p) by rw [not_le]; linarith,
      show ¬((13:ℚ)/16 ≤ p) by rw [not_le]; linarith,
      show ¬((15:ℚ)/16 ≤ p) by rw [not_le]; linarith]
  · simp [moonPhaseLabels, List.countP_cons,
      show ((16:ℚ)⁻¹ ≤ p) by rw [show ((16:ℚ)⁻¹ = 1/16) by norm_num]; linarith,
      show (3:ℚ)/16 ≤ p by linarith,
      show ¬((5:ℚ)/16 ≤ p) by rw [not_le]; linarith,
      show ¬((7:ℚ)/16 ≤ p) by rw [not_le]; linarith,
      show ¬((9:ℚ)/16 ≤ p) by rw [not_le]; linarith,
      show ¬((11:ℚ)/16 ≤ p) by rw [not_le]; linarith,
      show ¬((13:ℚ)/16 ≤ p) by rw [not_le]; linarith,
      show ¬((15:ℚ)/16 ≤ p) by rw [not_le]; linarith]
  · simp [moonPhaseLabels, List.countP_cons,
      show ((16:ℚ)⁻¹ ≤ p) by rw [show ((16:ℚ)⁻¹ = 1/16) by norm_num]; linarith,
      show (3:ℚ)/16 ≤ p by linarith,
      show (5:ℚ)/16 ≤ p by linarith,
      show ¬((7:ℚ)/16 ≤ p) by rw [not_le]; linarith,
      show ¬((9:ℚ)/16 ≤ p) by rw [not_le]; linarith,
      show ¬((11:ℚ)/16 ≤ p) by rw [not_le]; linarith,
      show ¬((13:ℚ)/16 ≤ p) by rw [not_le]; linarith,
      show ¬((15:ℚ)/16 ≤ p) by rw [not_le]; linarith]
  · simp [moonPhaseLabels, List.countP_cons,
      show ((16:ℚ)⁻¹ ≤ p) by rw [show ((16:ℚ)⁻¹ = 1/16) by norm_num]; linarith,
      show (3:ℚ)/16 ≤ p by linarith,
      show (5:ℚ)/16 ≤ p by linarith,
      show (7:ℚ)/16 ≤ p by linarith,
      show ¬((9:ℚ)/16 ≤ p) by rw [not_le]; linarith,
      show ¬((11:ℚ)/16 ≤ p) by rw [not_le]; linarith,
      show ¬((13:ℚ)/16 ≤ p) by rw [not_le]; linarith,
      show ¬((15:ℚ)/16 ≤ p) by rw [not_le]; linarith]
  · simp [moonPhaseLabels, List.countP_cons,
      show ((16:ℚ)⁻¹ ≤ p) by rw [show ((16:ℚ)⁻¹ = 1/16) by norm_num]; linarith,
      show (3:ℚ)/16 ≤ p by linarith,
      show (5:ℚ)/16 ≤ p by linarith,
      show (7:ℚ)/16 ≤ p by linarith,
      show (9:ℚ)/16 ≤ p by linarith,
      show ¬((11:ℚ)/16 ≤ p) by rw [not_le]; linarith,
      show ¬((13:ℚ)/16 ≤ p) by rw [not_le]; linarith,
      show ¬((15:ℚ)/16 ≤ p) by rw [not_le]; linarith]
  · simp [moonPhaseLabels, List.countP_cons,
      show ((16:ℚ)⁻¹ ≤ p) by rw [show ((16:ℚ)⁻¹ = 1/16) by norm_num]; linarith,
      show (3:ℚ)/16 ≤ p by linarith,
      show (5:ℚ)/16 ≤ p by linarith,
      show (7:ℚ)/16 ≤ p by linarith,
      show (9:ℚ)/16 ≤ p by linarith,
      show (11:ℚ)/16 ≤ p by linarith,
      show ¬((13:ℚ)/16 ≤ p) by rw [not_le]; linarith,
      show ¬((15:ℚ)/16 ≤ p) by rw [not_le]; linarith]
  · simp [moonPhaseLabels, List.countP_cons,
      show ((16:ℚ)⁻¹ ≤ p) by rw [show ((16:ℚ)⁻¹ = 1/16) by norm_num]; linarith,
      show (3:ℚ)/16 ≤ p by linarith,
      show (5:ℚ)/16 ≤ p by linarith,
      show (7:ℚ)/16 ≤ p by linarith,
      show (9:ℚ)/16 ≤ p by linarith,
      show (11:ℚ)/16 ≤ p by linarith,
      show (13:ℚ)/16 ≤ p by linarith,
      show ¬((15:ℚ)/16 ≤ p) by rw [not_le]; linarith]
  · simp [moonPhaseLabels, List.countP_cons,
      show ((16:ℚ)⁻¹ ≤ p) by rw [show ((16:ℚ)⁻¹ = 1/16) by norm_num]; linarith,
      show (3:ℚ)/16 ≤ p by linarith,
      show (5:ℚ)/16 ≤ p by linarith,
      show (7:ℚ)/16 ≤ p by linarith,
      show (9:ℚ)/16 ≤ p by linarith,
      show (11:ℚ)/16 ≤ p by linarith,
      show (13:ℚ)/16 ≤ p by linarith,
      show (15:ℚ)/16 ≤ p by linarith]

end PhantomTracker

namespace PhantomTracker

/-! ## JS string and number basics

`parseLocationKey` and the location-key formatter manipulate strings
character by character, so keys are modelled as `List Char`.  JS numbers
are exact rationals here, with `NaN` and `undefined` made explicit. -/

/-- The decimal digit characters. -/
def digitChar (d : Nat) : Char :=
  if d = 0 then '0'
  else if d = 1 then '1'
  else if d = 2 then '2'
  else if d = 3 then '3'
  else if d = 4 then '4'
  else if d = 5 then '5'
  else if d = 6 then '6'
  else if d = 7 then '7'
  else if d = 8 then '8'
  else '9'

/-- Digit value of a character, if it is a decimal digit (its distance
from the code point of the zero digit). -/
def charVal? (c : Char) : Option Nat :=
  if '0' ≤ c ∧ c ≤ '9' then some (c.toNat - 48) else none

def isDigitChar (c : Char) : Bool := (charVal? c).isSome

/-- Value of a big-endian digit string (non-digits count as 0; callers
only apply this to digit strings). -/
def charsToNat (cs : List Char) : Nat :=
  cs.foldl (fun a c => 10 * a + (charVal? c).getD 0) 0

/-- Digit accumulation with explicit fuel (the fuel argument makes the
recursion structural; `natToChars` supplies enough of it). -/
def natToCharsAux : Nat → Nat → List Char
  | 0, _ => []
  | fuel + 1, n =>
      if n = 0 then []
      else natToCharsAux fuel (n / 10) ++ [digitChar (n % 10)]

/-- Shortest decimal digit string of a natural number (the JS rendering
of a non-negative integer). -/
def natToChars (n : Nat) : List Char :=
  if n = 0 then ['0'] else natToCharsAux n n

/-- JS `Number(string)` on decimal notation, `none` standing for `NaN`:
trims spaces, maps the empty string to 0, accepts an optional sign,
integer digits, and an optional fraction part; anything else is `NaN`.
(Exponent and radix-prefixed forms, which no caller in the modelled code
produces, are mapped to `NaN`.) -/
def jsNumber (s : List Char) : Option ℚ :=
  let t := ((s.dropWhile (fun c => c = ' ')).reverse.dropWhile (fun c => c = ' ')).reverse
  if t.isEmpty then some 0
  else
    let sign : ℚ := if t.headD ' ' = '-' then -1 else 1
    let t1 : List Char := if t.headD ' ' = '-' ∨ t.headD ' ' = '+' then t.tail else t
    let ds := t1.takeWhile isDigitChar
    let r1 := t1.dropWhile isDigitChar
    if r1.isEmpty then
      if ds.isEmpty then none else some (sign * charsToNat ds)
    else if r1.headD ' ' = '.' ∧ (r1.tail.dropWhile isDigitChar).isEmpty then
      let fs := r1.tail.takeWhile isDigitChar
      if ds.isEmpty ∧ fs.isEmpty then none
      else some (sign * ((charsToNat ds : ℚ) + (charsToNat fs : ℚ) / 10 ^ fs.length))
    else none

/-- JS `String.prototype.split(",")`: never empty, preserves empty
fields. -/
def splitComma : List Char → List (List Char)
  | [] => [[]]
  | c :: rest =>
      if c = ',' then [] :: splitComma rest
      else
        match splitComma rest with
        | [] => [[c]]
        | h :: t => (c :: h) :: t

/-- A JS number-ish value as it can appear after `split(",").map(Number)`
and array destructuring: a finite number, `NaN`, or `undefined`. -/
inductive JSNum where
  | undef
  | nan
  | num (q : ℚ)
deriving DecidableEq

def jsNumOfOption : Option ℚ → JSNum
  | none => JSNum.nan
  | some q => JSNum.num q

/-- Exact coordinates as fed into the subsystem. -/
structure Coordinates where
  latitude : ℚ
  longitude : ℚ

/-- The result type of `parseLocationKey`: each axis may be a finite
number, `NaN` (non-numeric field), or `undefined` (missing field). -/
structure JSCoordinates where
  latitude : JSNum
  longitude : JSNum
deriving DecidableEq

/-- JS `Math.round`: half-way cases round toward positive infinity. -/
def jsRound (x : ℚ) : Int := ⌊x + 1/2⌋

/-! ## LocationKey (part_001) -/

/-- Shortest decimal rendering of the JS number `n/100`, as produced by a
template literal: no trailing fractional zeros, no fraction part for
integers, `"0"` for zero (also for JS `-0`). -/
def fmtCenti (n : Int) : List Char :=
  let m := n.natAbs
  let ip := m / 100
  let fr := m % 100
  let body :=
    if fr = 0 then natToChars ip
    else if fr % 10 = 0 then natToChars ip ++ '.' :: [digitChar (fr / 10)]
    else if fr < 10 then natToChars ip ++ '.' :: ['0', digitChar fr]
    else natToChars ip ++ '.' :: [digitChar (fr / 10), digitChar (fr % 10)]
  if n < 0 then '-' :: body else body

/-- Embedding of `getLocationKey` (part_001): round both axes to two
decimals (`Math.round(x * 100) / 100`) and format as `"lat,lon"`. -/
def getLocationKey (coords : Coordinates) : List Char :=
  fmtCenti (jsRound (coords.latitude * 100)) ++ ',' :: fmtCenti (jsRound (coords.longitude * 100))

/-- Embedding of `parseLocationKey` (part_001): split on the comma, apply
`Number` to the fields, destructure the first two.  Total: malformed
input yields `NaN`/`undefined` components, never an error. -/
def parseLocationKey (key : List Char) : JSCoordinates :=
  let parts := (splitComma key).map (fun p => jsNumOfOption (jsNumber p))
  { latitude := parts.headD JSNum.undef,
    longitude := (parts.drop 1).headD JSNum.undef }

/-- The well-formedness condition named by the spec: the string consists
of exactly two comma-separated fields, both numeric. -/
def twoNumericFields (key : List Char) : Bool :=
  match splitComma key with
  | [a, b] => (jsNumber a).isSome && (jsNumber b).isSome
  | _ => false

end PhantomTracker

namespace PhantomTracker

/-! ## Historical weather points and the weather cache (part_001, part_003) -/

/-- One millisecond-resolution day, `24 * 60 * 60 * 1000`. -/
def oneDay : Int := 86400000

/-- UTC calendar day (day number) of a millisecond timestamp;
`toISOString().split("T")[0]` of a `Date` denotes this day. -/
def utcDayOfMs (ms : Int) : Int := ms / oneDay

/-- UTC calendar day of a second-resolution timestamp. -/
def utcDayOfSec (ts : Int) : Int := ts / 86400

/-- UTC hour of day of a second-resolution timestamp (`getHours` with the
host timezone taken to be UTC). -/
def hourOfSec (ts : Int) : Int := (ts / 3600) % 24

/-- `HistoricalWeatherPoint` of part_003; `date` is the ISO day string as
a day number. -/
structure HistoricalWeatherPoint where
  date : Int
  timestamp : Int
  temperature : ℚ
  feels_like : ℚ
  pressure : ℚ
  humidity : ℚ
  wind_speed : ℚ
  weather_description : String
  clouds : ℚ
deriving DecidableEq

/-- `WeatherCacheRow` of part_001: the persisted shape.  There is no
`timestamp` column; `weather_description` and `clouds` are nullable. -/
structure WeatherCacheRow where
  location_key : List Char
  date : Int
  temperature : ℚ
  feels_like : ℚ
  pressure : ℚ
  humidity : ℚ
  wind_speed : ℚ
  weather_description : Option String
  clouds : Option ℚ
deriving DecidableEq

/-- How `getCachedWeather` rebuilds a point from a row: the timestamp is
recomputed as `new Date(row.date).getTime() / 1000`, i.e. midnight UTC of
the date, and the nullable fields get fallbacks. -/
def rowToPoint (r : WeatherCacheRow) : HistoricalWeatherPoint :=
  { date := r.date
    timestamp := r.date * 86400
    temperature := r.temperature
    feels_like := r.feels_like
    pressure := r.pressure
    humidity := r.humidity
    wind_speed := r.wind_speed
    weather_description := r.weather_description.getD "unknown"
    clouds := r.clouds.getD 0 }

/-- The row `cacheWeatherData` writes for a point under a location key. -/
def pointToRow (locationKey : List Char) (p : HistoricalWeatherPoint) : WeatherCacheRow :=
  { location_key := locationKey
    date := p.date
    temperature := p.temperature
    feels_like := p.feels_like
    pressure := p.pressure
    humidity := p.humidity
    wind_speed := p.wind_speed
    weather_description := some p.weather_description
    clouds := some p.clouds }

/-- JS `Map.set`: overwrite in place if the key exists, else append. -/
def mapSet {α : Type} : List (Int × α) → Int → α → List (Int × α)
  | [], k, v => [(k, v)]
  | (k', v') :: rest, k, v =>
      if k' = k then (k, v) :: rest else (k', v') :: mapSet rest k v

/-- JS `Map.has`. -/
def mapHas {α : Type} (m : List (Int × α)) (k : Int) : Bool :=
  m.any (fun e => e.1 = k)

/-- Embedding of `getCachedWeather` (part_001): select the rows of the
store whose key matches and whose date is among the requested dates, and
build the date-indexed map (insertion-ordered).  The backing store is
modelled as the list of persisted rows; the fail-open paths (store not
configured, read fault) return the empty map and are represented by an
empty store. -/
def getCachedWeather (store : List WeatherCacheRow) (locationKey : List Char)
    (dates : List Int) : List (Int × HistoricalWeatherPoint) :=
  let rows := store.filter (fun r => r.location_key = locationKey && r.date ∈ dates)
  rows.foldl (fun cache r => mapSet cache r.date (rowToPoint r)) []

/-- Embedding of `cacheWeatherData` (part_001): no-op on empty input, else
a batch upsert with `ignoreDuplicates: true` on `(location_key, date)` —
rows whose key pair already exists (in the store or earlier in the same
batch) are left untouched, everything else is appended. -/
def cacheWeatherData (store : List WeatherCacheRow) (locationKey : List Char)
    (data : List HistoricalWeatherPoint) : List WeatherCacheRow :=
  if data.isEmpty then store
  else
    data.foldl
      (fun st p =>
        if st.any (fun r => r.location_key = locationKey && r.date = p.date) then st
        else st ++ [pointToRow locationKey p])
      store

/-! ## Historical provider client (`fetchFromOpenWeather`, part_003) -/

/-- One entry of the One Call timemachine response's `data` array. -/
structure OneCallSample where
  dt : Int
  temp : ℚ
  feels_like : ℚ
  pressure : ℚ
  humidity : ℚ
  wind_speed : ℚ
  clouds : ℚ
  weather : List String
deriving DecidableEq

/-- Outcome of one upstream HTTP interaction: a parsed payload, a
non-2xx status, a network fault, or an unparseable body. -/
inductive UpstreamResult (α : Type) where
  | ok (payload : α)
  | httpError (status : Nat)
  | networkFault
  | malformed
deriving DecidableEq

def defaultSample : OneCallSample :=
  { dt := 0, temp := 0, feels_like := 0, pressure := 0, humidity := 0,
    wind_speed := 0, clouds := 0, weather := [] }

/-- Embedding of `fetchFromOpenWeather` (part_003).  `apiKey` is whether
`OPENWEATHERMAP_API_KEY` is set; `resp` gives the upstream outcome for a
requested timestamp.  Every failure path (missing key, any non-2xx
status, network fault, malformed body, empty `data`) returns `none`; on
success the sample nearest local noon (hours 11–13, falling back to the
middle of the series) becomes the canonical point, whose `date` is the
UTC day of the requested timestamp and whose `timestamp` is the chosen
sample's `dt`. -/
def fetchFromOpenWeather (apiKey : Bool)
    (resp : Int → UpstreamResult (List OneCallSample)) (timestamp : Int) :
    Option HistoricalWeatherPoint :=
  if apiKey = false then none
  else
    match resp timestamp with
    | UpstreamResult.ok hourlyData =>
        if hourlyData.isEmpty then none
        else
          let noonData :=
            match hourlyData.find? (fun h => 11 ≤ hourOfSec h.dt && hourOfSec h.dt ≤ 13) with
            | some h => h
            | none => hourlyData.getD (hourlyData.length / 2) defaultSample
          some
            { date := utcDayOfSec timestamp
              timestamp := noonData.dt
              temperature := (jsRound (noonData.temp * 10) : ℚ) / 10
              feels_like := (jsRound (noonData.feels_like * 10) : ℚ) / 10
              pressure := noonData.pressure
              humidity := noonData.humidity
              wind_speed := (jsRound (noonData.wind_speed * 10) : ℚ) / 10
              weather_description := noonData.weather.headD "unknown"
              clouds := noonData.clouds }
    | _ => none

end PhantomTracker

namespace PhantomTracker

/-! ## Historical range assembler (`fetchHistoricalWeatherRange`, part_003) -/

/-- `Math.ceil((endDate - startDate) / oneDay)`: ceiling division of the
millisecond span by one day. -/
def daysDiff (startMs endMs : Int) : Int :=
  (endMs - startMs + oneDay - 1) / oneDay

/-- `Math.min(daysDiff, 90)`. -/
def daysToFetch (startMs endMs : Int) : Int :=
  min (daysDiff startMs endMs) 90

/-- The enumeration loop of `fetchHistoricalWeatherRange`: for
`i = 0 .. daysToFetch-1`, take `endDate - i` days, set the time to noon
UTC, and record the day (the ISO date string) together with the
second-resolution provider timestamp of that noon. -/
def enumeratedPairs (startMs endMs : Int) : List (Int × Int) :=
  (List.range (daysToFetch startMs endMs).toNat).map (fun i : Nat =>
    let ms := endMs - (i : Int) * oneDay
    let day := utcDayOfMs ms
    (day, day * 86400 + 43200))

/-- The `datesToFetch` array: the enumerated days, newest first. -/
def datesToFetch (startMs endMs : Int) : List Int :=
  (enumeratedPairs startMs endMs).map (fun pr => pr.1)

/-- The `timestampsByDate` map lookup.  The enumerated days are pairwise
distinct, so first-match lookup coincides with the JS `Map`. -/
def timestampsByDate (startMs endMs : Int) (d : Int) : Option Int :=
  ((enumeratedPairs startMs endMs).find? (fun pr => pr.1 = d)).map (fun pr => pr.2)

instance decDateLE :
    DecidableRel (fun a b : HistoricalWeatherPoint => a.date ≤ b.date) :=
  fun a b => Int.decLe a.date b.date

instance totalDateLE :
    IsTotal HistoricalWeatherPoint (fun a b => a.date ≤ b.date) :=
  ⟨fun a b => le_total a.date b.date⟩

instance transDateLE :
    IsTrans HistoricalWeatherPoint (fun a b => a.date ≤ b.date) :=
  ⟨fun _ _ _ h1 h2 => le_trans h1 h2⟩

/-- Everything observable about one `fetchHistoricalWeatherRange` request:
the returned series, the provider invocations (by requested timestamp),
the batch handed to `cacheWeatherData` (`none` when no write was
attempted), and the resulting cache store. -/
structure RangeTrace where
  results : List HistoricalWeatherPoint
  providerCalls : List Int
  cacheWrites : Option (List HistoricalWeatherPoint)
  finalStore : List WeatherCacheRow

/-- Embedding of `fetchHistoricalWeatherRange` (part_003).  The batched
provider fetching (batches of 10 with a pacing delay) collects, in date
order, exactly the non-null results of one fetch per uncached date, so it
is modelled as a `filterMap` over the uncached dates; `Array.prototype.sort`
by `localeCompare` on ISO date strings is modelled by insertion sort on
day numbers. -/
def fetchHistoricalWeatherRange (apiKey : Bool)
    (resp : Int → UpstreamResult (List OneCallSample))
    (store : List WeatherCacheRow) (coords : Coordinates)
    (startMs endMs : Int) : RangeTrace :=
  let dates := datesToFetch startMs endMs
  let locationKey := getLocationKey coords
  let cachedData := getCachedWeather store locationKey dates
  let uncachedDates := dates.filter (fun d => mapHas cachedData d = false)
  let calls := uncachedDates.filterMap (fun d =>
      match timestampsByDate startMs endMs d with
      | none => none
      | some ts => if ts = 0 then none else some ts)
  let newlyFetched := calls.filterMap (fun ts => fetchFromOpenWeather apiKey resp ts)
  let doWrite := decide (uncachedDates.length > 0) && decide (newlyFetched.length > 0)
  { results :=
      List.insertionSort (fun a b => a.date ≤ b.date)
        (cachedData.map (fun e => e.2) ++ newlyFetched)
    providerCalls := calls
    cacheWrites := if doWrite then some newlyFetched else none
    finalStore :=
      if doWrite then cacheWeatherData store locationKey newlyFetched else store }

/-- Modelled from the spec (for claims C1/C10): the calendar days of the
inclusive interval `[startDate, endDate]`, ascending. -/
def specInclusiveDays (startMs endMs : Int) : List Int :=
  (List.range (utcDayOfMs endMs - utcDayOfMs startMs + 1).toNat).map
    (fun i : Nat => utcDayOfMs startMs + (i : Int))

end PhantomTracker
namespace PhantomTracker

/-! ### Arithmetic of the date enumeration -/

lemma utcDayOfMs_sub_mul (e i : Int) :
    utcDayOfMs (e - i * oneDay) = utcDayOfMs e - i := by
  unfold utcDayOfMs oneDay
  omega

lemma enumeratedPairs_eq (s e : Int) :
    enumeratedPairs s e =
      (List.range (daysToFetch s e).toNat).map
        (fun i : Nat => (utcDayOfMs e - (i : Int),
                   (utcDayOfMs e - (i : Int)) * 86400 + 43200)) := by
  unfold enumeratedPairs
  refine List.map_congr_left ?_
  intro i _hi
  simp only [utcDayOfMs_sub_mul]

lemma datesToFetch_eq (s e : Int) :
    datesToFetch s e =
      (List.range (daysToFetch s e).toNat).map (fun i : Nat => utcDayOfMs e - (i : Int)) := by
  unfold datesToFetch
  rw [enumeratedPairs_eq, List.map_map]
  rfl

lemma mem_datesToFetch {s e d : Int} :
    d ∈ datesToFetch s e ↔
      utcDayOfMs e - daysToFetch s e < d ∧ d ≤ utcDayOfMs e := by
  rw [datesToFetch_eq]
  simp only [List.mem_map, List.mem_range]
  constructor
  · rintro ⟨i, hi, rfl⟩
    omega
  · rintro ⟨h1, h2⟩
    exact ⟨(utcDayOfMs e - d).toNat, by omega, by omega⟩

lemma datesToFetch_length (s e : Int) :
    (datesToFetch s e).length = (daysToFetch s e).toNat := by
  rw [datesToFetch_eq, List.length_map, List.length_range]

lemma datesToFetch_nodup (s e : Int) : (datesToFetch s e).Nodup := by
  rw [datesToFetch_eq]
  refine List.Nodup.map ?_ (List.nodup_range _)
  intro a b hab
  simp only at hab
  omega

lemma enumeratedPairs_noon {s e : Int} {pr : Int × Int}
    (h : pr ∈ enumeratedPairs s e) : pr.2 = pr.1 * 86400 + 43200 := by
  rw [enumeratedPairs_eq] at h
  obtain ⟨i, _, rfl⟩ := List.mem_map.mp h
  rfl

lemma daysDiff_aligned (s e : Int) :
    daysDiff (s * oneDay) (e * oneDay) = e - s := by
  unfold daysDiff oneDay
  omega

lemma utcDayOfMs_aligned (s : Int) : utcDayOfMs (s * oneDay) = s := by
  unfold utcDayOfMs oneDay
  omega

end PhantomTracker
namespace PhantomTracker

/-- A successful `timestampsByDate` lookup yields the noon-UTC timestamp
of the looked-up day. -/
lemma timestampsByDate_noon {s e d ts : Int}
    (h : timestampsByDate s e d = some ts) : ts = d * 86400 + 43200 := by
  unfold timestampsByDate at h
  cases hfind : (enumeratedPairs s e).find? (fun pr => pr.1 = d) with
  | none => rw [hfind] at h; exact Option.noConfusion h
  | some pr =>
      rw [hfind] at h
      have h2 : pr.2 = ts := Option.some.inj h
      have hp : pr.1 = d := by
        have := List.find?_some hfind
        simpa using this
      rw [← h2, ← hp]
      exact enumeratedPairs_noon (List.mem_of_find?_eq_some hfind)

lemma providerCalls_shape (apiKey : Bool)
    (resp : Int → UpstreamResult (List OneCallSample))
    (store : List WeatherCacheRow) (coords : Coordinates) (startMs endMs : Int) :
    ∀ ts ∈ (fetchHistoricalWeatherRange apiKey resp store coords startMs endMs).providerCalls,
      ∃ d ∈ datesToFetch startMs endMs, ts = d * 86400 + 43200 := by
  intro ts hts
  simp only [fetchHistoricalWeatherRange] at hts
  obtain ⟨d, hd, heq⟩ := List.mem_filterMap.mp hts
  cases hfind : timestampsByDate startMs endMs d with
  | none =>
      rw [hfind] at heq
      exact Option.noConfusion heq
  | some ts' =>
      rw [hfind] at heq
      have heq2 : (if ts' = 0 then none else some ts') = some ts := heq
      by_cases hz : ts' = 0
      · rw [if_pos hz] at heq2; cases heq2
      · rw [if_neg hz] at heq2
        cases heq2
        exact ⟨d, List.mem_of_mem_filter hd, timestampsByDate_noon hfind⟩

/-- C1 counterexample: with startDate = 1970-01-01T00:00Z (day 0) and
endDate = 1970-01-05T00:00Z (day 4), the inclusive interval spans 5
calendar days, well within 90, but the assembler enumerates only the 4
days [4, 3, 2, 1]: the day of startDate is not requested. -/
theorem datesToFetch_startDate_missing_counterexample :
    utcDayOfMs (4 * oneDay) - utcDayOfMs 0 + 1 = 5 ∧
    (5 : Int) ≤ 90 ∧
    specInclusiveDays 0 (4 * oneDay) = [0, 1, 2, 3, 4] ∧
    datesToFetch 0 (4 * oneDay) = [4, 3, 2, 1] ∧
    utcDayOfMs 0 ∉ datesToFetch 0 (4 * oneDay) := by
  refine ⟨by decide, by decide, by decide, by decide, by decide⟩

/-- C1 (amended): for midnight-aligned startDate (day s) and endDate
(day e) with an in-range span, the assembler enumerates exactly the days
of the half-open interval (s, e] — `Math.ceil((end-start)/oneDay)` many,
counted back from endDate, so the day of startDate itself is excluded —
and requests each enumerated day at the canonical instant noon UTC. -/
theorem datesToFetch_aligned_enumeration (s e : Int)
    (hle : s ≤ e) (hspan : e - s ≤ 90) :
    (∀ d : Int, d ∈ datesToFetch (s * oneDay) (e * oneDay) ↔ s < d ∧ d ≤ e) ∧
    (datesToFetch (s * oneDay) (e * oneDay)).length = (e - s).toNat ∧
    (∀ pr ∈ enumeratedPairs (s * oneDay) (e * oneDay), pr.2 = pr.1 * 86400 + 43200) := by
  have hd : daysToFetch (s * oneDay) (e * oneDay) = e - s := by
    unfold daysToFetch
    rw [daysDiff_aligned]
    omega
  refine ⟨?_, ?_, fun pr h => enumeratedPairs_noon h⟩
  · intro d
    rw [mem_datesToFetch, hd, utcDayOfMs_aligned]
    omega
  · rw [datesToFetch_length, hd]

/-- C1 amended-claim witness at s = 0, e = 3. -/
theorem datesToFetch_aligned_enumeration_witness :
    (∀ d : Int, d ∈ datesToFetch (0 * oneDay) (3 * oneDay) ↔ 0 < d ∧ d ≤ 3) ∧
    (datesToFetch (0 * oneDay) (3 * oneDay)).length = ((3 : Int) - 0).toNat ∧
    (∀ pr ∈ enumeratedPairs (0 * oneDay) (3 * oneDay), pr.2 = pr.1 * 86400 + 43200) :=
  datesToFetch_aligned_enumeration 0 3 (by norm_num) (by norm_num)

/-- C10: when the requested span strictly exceeds the 90-day cap
(`daysDiff > 90`), the enumerated window is exactly the 90 consecutive
calendar days ending at endDate's UTC day; the day of startDate is not
among them, so it is neither looked up in the cache nor fetched — every
provider call targets one of the retained 90 days at noon UTC. -/
theorem datesToFetch_over_90_keeps_recent (startMs endMs : Int)
    (h : 90 < daysDiff startMs endMs) :
    (datesToFetch startMs endMs).length = 90 ∧
    (∀ d : Int, d ∈ datesToFetch startMs endMs ↔
        utcDayOfMs endMs - 90 < d ∧ d ≤ utcDayOfMs endMs) ∧
    utcDayOfMs startMs ∉ datesToFetch startMs endMs ∧
    (∀ (apiKey : Bool) (resp : Int → UpstreamResult (List OneCallSample))
        (store : List WeatherCacheRow) (coords : Coordinates),
      ∀ ts ∈ (fetchHistoricalWeatherRange apiKey resp store coords startMs endMs).providerCalls,
        ∃ d ∈ datesToFetch startMs endMs, ts = d * 86400 + 43200) := by
  have hd : daysToFetch startMs endMs = 90 := by
    unfold daysToFetch
    omega
  have hstart : utcDayOfMs startMs ≤ utcDayOfMs endMs - 90 := by
    unfold daysDiff oneDay at h
    unfold utcDayOfMs oneDay
    omega
  refine ⟨by rw [datesToFetch_length, hd]; rfl, ?_, ?_, ?_⟩
  · intro d
    rw [mem_datesToFetch, hd]
  · rw [mem_datesToFetch, hd]
    omega
  · intro apiKey resp store coords
    exact providerCalls_shape apiKey resp store coords startMs endMs

/-- C10 witness at startMs = 0, endMs = 100 days. -/
theorem datesToFetch_over_90_keeps_recent_witness :
    (datesToFetch 0 (100 * oneDay)).length = 90 ∧
    (∀ d : Int, d ∈ datesToFetch 0 (100 * oneDay) ↔
        utcDayOfMs (100 * oneDay) - 90 < d ∧ d ≤ utcDayOfMs (100 * oneDay)) ∧
    utcDayOfMs 0 ∉ datesToFetch 0 (100 * oneDay) ∧
    (∀ (apiKey : Bool) (resp : Int → UpstreamResult (List OneCallSample))
        (store : List WeatherCacheRow) (coords : Coordinates),
      ∀ ts ∈ (fetchHistoricalWeatherRange apiKey resp store coords 0 (100 * oneDay)).providerCalls,
        ∃ d ∈ datesToFetch 0 (100 * oneDay), ts = d * 86400 + 43200) :=
  datesToFetch_over_90_keeps_recent 0 (100 * oneDay) (by decide)

end PhantomTracker
namespace PhantomTracker

/-- `getLocationKey` at the origin. -/
lemma getLocationKey_zero : getLocationKey ⟨0, 0⟩ = ['0', ',', '0'] := by
  have h : jsRound ((0 : ℚ) * 100) = 0 := by norm_num [jsRound]
  simp only [getLocationKey, h]
  decide

/-- C4: when the cache read returns a point for every enumerated date of
the range, the historical provider client is invoked zero times, no
cache write is attempted, and the store is left untouched. -/
theorem fetchHistoricalWeatherRange_full_cache (apiKey : Bool)
    (resp : Int → UpstreamResult (List OneCallSample))
    (store : List WeatherCacheRow) (coords : Coordinates) (startMs endMs : Int)
    (h : ∀ d ∈ datesToFetch startMs endMs,
        mapHas (getCachedWeather store (getLocationKey coords)
                 (datesToFetch startMs endMs)) d = true) :
    (fetchHistoricalWeatherRange apiKey resp store coords startMs endMs).providerCalls = [] ∧
    (fetchHistoricalWeatherRange apiKey resp store coords startMs endMs).cacheWrites = none ∧
    (fetchHistoricalWeatherRange apiKey resp store coords startMs endMs).finalStore = store := by
  have huncached : (datesToFetch startMs endMs).filter
      (fun d => mapHas (getCachedWeather store (getLocationKey coords)
                 (datesToFetch startMs endMs)) d = false) = [] := by
    rw [List.filter_eq_nil_iff]
    intro d hd
    simp [h d hd]
  simp only [fetchHistoricalWeatherRange, huncached]
  simp

def sampleCacheRow : WeatherCacheRow :=
  { location_key := ['0', ',', '0'], date := 1, temperature := 5,
    feels_like := 5, pressure := 1000, humidity := 50, wind_speed := 3,
    weather_description := some "clear", clouds := some 20 }

/-- C4 witness: a one-day range whose single enumerated date is cached. -/
theorem fetchHistoricalWeatherRange_full_cache_witness :
    (fetchHistoricalWeatherRange true (fun _ => UpstreamResult.malformed)
        [sampleCacheRow] ⟨0, 0⟩ 0 oneDay).providerCalls = [] ∧
    (fetchHistoricalWeatherRange true (fun _ => UpstreamResult.malformed)
        [sampleCacheRow] ⟨0, 0⟩ 0 oneDay).cacheWrites = none ∧
    (fetchHistoricalWeatherRange true (fun _ => UpstreamResult.malformed)
        [sampleCacheRow] ⟨0, 0⟩ 0 oneDay).finalStore = [sampleCacheRow] :=
  fetchHistoricalWeatherRange_full_cache true (fun _ => UpstreamResult.malformed)
    [sampleCacheRow] ⟨0, 0⟩ 0 oneDay
    (by rw [getLocationKey_zero]; decide)

end PhantomTracker
namespace PhantomTracker

/-- The empty map has no keys. -/
lemma mapHas_nil {α : Type} (k : Int) : mapHas ([] : List (Int × α)) k = false := rfl

/-- The UTC day of an enumerated noon timestamp is the day itself. -/
lemma utcDayOfSec_noon (d : Int) : utcDayOfSec (d * 86400 + 43200) = d := by
  unfold utcDayOfSec
  omega

/-- A successful `fetchFromOpenWeather` call returns a point dated with
the UTC day of the requested timestamp (the date is computed from the
request, not from the response payload). -/
lemma fetchFromOpenWeather_date {apiKey : Bool}
    {resp : Int → UpstreamResult (List OneCallSample)} {ts : Int}
    {p : HistoricalWeatherPoint}
    (h : fetchFromOpenWeather apiKey resp ts = some p) :
    p.date = utcDayOfSec ts := by
  unfold fetchFromOpenWeather at h
  split at h
  · exact Option.noConfusion h
  · split at h
    · split at h
      · exact Option.noConfusion h
      · cases h
        rfl
    · exact Option.noConfusion h

/-- Dates of the collected fetch results: exactly the days whose fetch
succeeded, in enumeration order. -/
lemma map_date_filterMap (f : Int → Option HistoricalWeatherPoint)
    (hf : ∀ d p, f d = some p → p.date = d) (l : List Int) :
    (l.filterMap f).map (fun p => p.date) = l.filter (fun d => (f d).isSome) := by
  induction l with
  | nil => rfl
  | cons a t ih =>
      cases hfa : f a with
      | none => simp [List.filterMap_cons, hfa, ih, List.filter_cons]
      | some p => simp [List.filterMap_cons, hfa, List.filter_cons, hf a p hfa, ih]

/-- For an enumerated date the `timestampsByDate` lookup always succeeds
with the noon-UTC timestamp. -/
lemma timestampsByDate_of_mem {s e d : Int} (hd : d ∈ datesToFetch s e) :
    timestampsByDate s e d = some (d * 86400 + 43200) := by
  unfold timestampsByDate
  obtain ⟨pr, hpr, hpr1⟩ : ∃ pr ∈ enumeratedPairs s e, pr.1 = d := by
    unfold datesToFetch at hd
    obtain ⟨pr, h1, h2⟩ := List.mem_map.mp hd
    exact ⟨pr, h1, h2⟩
  cases hfind : (enumeratedPairs s e).find? (fun pr => pr.1 = d) with
  | none =>
      have := List.find?_eq_none.mp hfind pr hpr
      simp [hpr1] at this
  | some pr' =>
      have h1 : pr'.1 = d := by simpa using List.find?_some hfind
      have h2 := enumeratedPairs_noon (List.mem_of_find?_eq_some hfind)
      simp [h2, h1]

/-- C3: in a range assembly in which the cache read returns no hits, all
enumerated dates are fetched from the provider, and the returned series
has at most N points, is strictly ascending by date (no duplicates), and
contains exactly N minus the number of failed per-date fetches, where N
is the number of enumerated days. -/
theorem fetchHistoricalWeatherRange_no_cache_hits (apiKey : Bool)
    (resp : Int → UpstreamResult (List OneCallSample))
    (store : List WeatherCacheRow) (coords : Coordinates) (startMs endMs : Int)
    (h : getCachedWeather store (getLocationKey coords) (datesToFetch startMs endMs) = []) :
    (fetchHistoricalWeatherRange apiKey resp store coords startMs endMs).results.length
        ≤ (datesToFetch startMs endMs).length ∧
    (fetchHistoricalWeatherRange apiKey resp store coords startMs endMs).results.length
        = (datesToFetch startMs endMs).length
          - (datesToFetch startMs endMs).countP
              (fun d => (fetchFromOpenWeather apiKey resp (d * 86400 + 43200)).isNone) ∧
    ((fetchHistoricalWeatherRange apiKey resp store coords startMs endMs).results.map
        (fun p => p.date)).Pairwise (· < ·) := by
  have hcalls : (datesToFetch startMs endMs).filterMap (fun d =>
      match timestampsByDate startMs endMs d with
      | none => none
      | some ts => if ts = 0 then none else some ts)
      = (datesToFetch startMs endMs).map (fun d => d * 86400 + 43200) := by
    rw [← List.filterMap_eq_map]
    refine List.filterMap_congr ?_
    intro d hd
    rw [timestampsByDate_of_mem hd]
    have hz : ¬(d * 86400 + 43200 = 0) := by omega
    simp [hz]
  have hnewly : ((datesToFetch startMs endMs).map (fun d => d * 86400 + 43200)).filterMap
      (fun ts => fetchFromOpenWeather apiKey resp ts)
      = (datesToFetch startMs endMs).filterMap
          (fun d => fetchFromOpenWeather apiKey resp (d * 86400 + 43200)) := by
    rw [List.filterMap_map]
    rfl
  have hgdate : ∀ d p, fetchFromOpenWeather apiKey resp (d * 86400 + 43200) = some p →
      p.date = d := by
    intro d p hp
    rw [fetchFromOpenWeather_date hp, utcDayOfSec_noon]
  have hresults : (fetchHistoricalWeatherRange apiKey resp store coords startMs endMs).results
      = List.insertionSort (fun a b => a.date ≤ b.date)
          ((datesToFetch startMs endMs).filterMap
            (fun d => fetchFromOpenWeather apiKey resp (d * 86400 + 43200))) := by
    simp only [fetchHistoricalWeatherRange, h, mapHas_nil, eq_self_iff_true, decide_True,
      List.filter_true, List.map_nil, List.nil_append]
    rw [hcalls, hnewly]
  have hperm : ((fetchHistoricalWeatherRange apiKey resp store coords startMs endMs).results).Perm
      ((datesToFetch startMs endMs).filterMap
        (fun d => fetchFromOpenWeather apiKey resp (d * 86400 + 43200))) := by
    rw [hresults]
    exact List.perm_insertionSort _ _
  have hlen : (fetchHistoricalWeatherRange apiKey resp store coords startMs endMs).results.length
      = ((datesToFetch startMs endMs).filterMap
          (fun d => fetchFromOpenWeather apiKey resp (d * 86400 + 43200))).length :=
    hperm.length_eq
  have hcount : ((datesToFetch startMs endMs).filterMap
        (fun d => fetchFromOpenWeather apiKey resp (d * 86400 + 43200))).length
      = (datesToFetch startMs endMs).countP
          (fun d => (fetchFromOpenWeather apiKey resp (d * 86400 + 43200)).isSome) :=
    List.length_filterMap_eq_countP _ _
  have hsum : (datesToFetch startMs endMs).length
      = (datesToFetch startMs endMs).countP
          (fun d => (fetchFromOpenWeather apiKey resp (d * 86400 + 43200)).isSome)
        + (datesToFetch startMs endMs).countP
            (fun d => (fetchFromOpenWeather apiKey resp (d * 86400 + 43200)).isNone) := by
    rw [List.length_eq_countP_add_countP
      (fun d => (fetchFromOpenWeather apiKey resp (d * 86400 + 43200)).isSome)]
    congr 1
    refine List.countP_congr ?_
    intro d _
    cases fetchFromOpenWeather apiKey resp (d * 86400 + 43200) <;> simp
  refine ⟨?_, ?_, ?_⟩
  · rw [hlen, hcount]
    omega
  · rw [hlen, hcount]
    omega
  · have hsorted : ((fetchHistoricalWeatherRange apiKey resp store coords startMs
        endMs).results.map (fun p => p.date)).Sorted (· ≤ ·) := by
      rw [hresults]
      rw [List.Sorted, List.pairwise_map]
      exact List.sorted_insertionSort _ _
    have hnodup : ((fetchHistoricalWeatherRange apiKey resp store coords startMs
        endMs).results.map (fun p => p.date)).Nodup := by
      have hperm2 := (hperm.map (fun p => p.date)).nodup_iff
      rw [hperm2, map_date_filterMap _ hgdate]
      exact (datesToFetch_nodup startMs endMs).filter _
    exact List.Sorted.lt_of_le hsorted hnodup

end PhantomTracker
namespace PhantomTracker

/-- C3 witness: a 4-day enumeration against an empty cache with a
provider that fails every fetch. -/
theorem fetchHistoricalWeatherRange_no_cache_hits_witness :
    (fetchHistoricalWeatherRange true (fun _ => UpstreamResult.malformed)
        [] ⟨0, 0⟩ 0 (4 * oneDay)).results.length
        ≤ (datesToFetch 0 (4 * oneDay)).length ∧
    (fetchHistoricalWeatherRange true (fun _ => UpstreamResult.malformed)
        [] ⟨0, 0⟩ 0 (4 * oneDay)).results.length
        = (datesToFetch 0 (4 * oneDay)).length
          - (datesToFetch 0 (4 * oneDay)).countP
              (fun d => (fetchFromOpenWeather true (fun _ => UpstreamResult.malformed)
                          (d * 86400 + 43200)).isNone) ∧
    ((fetchHistoricalWeatherRange true (fun _ => UpstreamResult.malformed)
        [] ⟨0, 0⟩ 0 (4 * oneDay)).results.map (fun p => p.date)).Pairwise (· < ·) :=
  fetchHistoricalWeatherRange_no_cache_hits true (fun _ => UpstreamResult.malformed)
    [] ⟨0, 0⟩ 0 (4 * oneDay) rfl

end PhantomTracker
namespace PhantomTracker

/-! ### Cache write/read algebra (claim C5) -/

/-- `cacheWeatherData` is its insertion fold; the empty-input guard
coincides with folding over nothing. -/
lemma cacheWeatherData_eq_foldl (store : List WeatherCacheRow) (k : List Char)
    (data : List HistoricalWeatherPoint) :
    cacheWeatherData store k data =
      data.foldl
        (fun st p =>
          if st.any (fun r => r.location_key = k && r.date = p.date) then st
          else st ++ [pointToRow k p])
        store := by
  cases data with
  | nil => rfl
  | cons p rest => rfl

/-- Inserting a batch of fresh, date-distinct points appends their rows. -/
lemma cacheWeatherData_append (k : List Char) :
    ∀ (ps : List HistoricalWeatherPoint) (store : List WeatherCacheRow),
    (∀ p ∈ ps, store.any (fun r => r.location_key = k && r.date = p.date) = false) →
    (ps.map (fun p => p.date)).Nodup →
    cacheWeatherData store k ps = store ++ ps.map (pointToRow k) := by
  intro ps
  induction ps with
  | nil =>
      intro store _ _
      simp [cacheWeatherData_eq_foldl]
  | cons p rest ih =>
      intro store hfresh hnodup
      rw [cacheWeatherData_eq_foldl]
      simp only [List.foldl_cons]
      rw [hfresh p (List.mem_cons_self p rest)]
      simp only [Bool.false_eq_true, if_false]
      rw [← cacheWeatherData_eq_foldl]
      rw [ih (store ++ [pointToRow k p]) ?_ ?_]
      · simp
      · intro q hq
        rw [List.any_append]
        simp only [Bool.or_eq_false_iff]
        refine ⟨hfresh q (List.mem_cons_of_mem p hq), ?_⟩
        simp only [List.any_cons, List.any_nil, Bool.or_false]
        have hne : q.date ≠ p.date := by
          simp only [List.map_cons, List.nodup_cons, List.mem_map] at hnodup
          intro hqp
          exact hnodup.1 ⟨q, hq, hqp⟩
        simp [pointToRow, hne, Ne.symm hne]
      · simp only [List.map_cons, List.nodup_cons] at hnodup
        exact hnodup.2

/-- `Map.set` with an unused key appends. -/
lemma mapSet_not_mem {α : Type} (m : List (Int × α)) (k : Int) (v : α)
    (h : ∀ e ∈ m, e.1 ≠ k) : mapSet m k v = m ++ [(k, v)] := by
  induction m with
  | nil => rfl
  | cons e rest ih =>
      unfold mapSet
      rw [if_neg (h e (List.mem_cons_self e rest))]
      rw [ih (fun x hx => h x (List.mem_cons_of_mem e hx))]
      simp

/-- Folding `Map.set` over date-distinct rows appends all their entries. -/
lemma foldl_mapSet_append :
    ∀ (rows : List WeatherCacheRow) (acc : List (Int × HistoricalWeatherPoint)),
    (∀ r ∈ rows, ∀ e ∈ acc, e.1 ≠ r.date) →
    (rows.map (fun r => r.date)).Nodup →
    rows.foldl (fun cache r => mapSet cache r.date (rowToPoint r)) acc
      = acc ++ rows.map (fun r => (r.date, rowToPoint r)) := by
  intro rows
  induction rows with
  | nil => intro acc _ _; simp
  | cons r rest ih =>
      intro acc hdisj hnodup
      simp only [List.foldl_cons]
      rw [mapSet_not_mem acc r.date (rowToPoint r)
        (fun e he => hdisj r (List.mem_cons_self r rest) e he)]
      rw [ih (acc ++ [(r.date, rowToPoint r)]) ?_ ?_]
      · simp
      · intro q hq e he
        rcases List.mem_append.mp he with he' | he'
        · exact hdisj q (List.mem_cons_of_mem r hq) e he'
        · simp only [List.mem_singleton] at he'
          subst he'
          simp only [List.map_cons, List.nodup_cons, List.mem_map] at hnodup
          intro hqd
          exact hnodup.1 ⟨q, hq, hqd.symm⟩
      · simp only [List.map_cons, List.nodup_cons] at hnodup
        exact hnodup.2

/-- Re-reading a cached row restores every field except the timestamp,
which becomes midnight UTC of the day. -/
lemma rowToPoint_pointToRow (k : List Char) (p : HistoricalWeatherPoint) :
    rowToPoint (pointToRow k p) = { p with timestamp := p.date * 86400 } := rfl

end PhantomTracker
namespace PhantomTracker

/-- A second batch aimed only at already-present `(key, date)` pairs is a
complete no-op on the store. -/
lemma cacheWeatherData_conflicts_noop (S : List WeatherCacheRow) (k : List Char) :
    ∀ (qs : List HistoricalWeatherPoint),
    (∀ q ∈ qs, S.any (fun r => r.location_key = k && r.date = q.date) = true) →
    cacheWeatherData S k qs = S := by
  intro qs
  induction qs with
  | nil => intro _; rfl
  | cons q rest ih =>
      intro h
      rw [cacheWeatherData_eq_foldl, List.foldl_cons,
        if_pos (h q (List.mem_cons_self q rest)), ← cacheWeatherData_eq_foldl]
      exact ih (fun x hx => h x (List.mem_cons_of_mem q hx))

/-- C5 (amended): writing a batch of date-distinct points for a key that
does not yet hold any of those dates and reading the same dates back
returns the written points in order with every field preserved except
`timestamp`, which is recomputed as midnight UTC of the point's date
(the cache row has no timestamp column); and a second `putMany` whose
dates are all already stored for that key leaves the store bit-for-bit
unchanged (first write wins). -/
theorem putMany_getMany_roundtrip (store : List WeatherCacheRow) (k : List Char)
    (ps qs : List HistoricalWeatherPoint)
    (hnodup : (ps.map (fun p => p.date)).Nodup)
    (hfresh : ∀ r ∈ store, r.location_key = k → ¬ r.date ∈ ps.map (fun p => p.date))
    (hqs : ∀ q ∈ qs, q.date ∈ ps.map (fun p => p.date)) :
    getCachedWeather (cacheWeatherData store k ps) k (ps.map (fun p => p.date))
      = ps.map (fun p => (p.date, { p with timestamp := p.date * 86400 })) ∧
    cacheWeatherData (cacheWeatherData store k ps) k qs = cacheWeatherData store k ps := by
  have hfresh' : ∀ p ∈ ps,
      store.any (fun r => r.location_key = k && r.date = p.date) = false := by
    intro p hp
    rw [List.any_eq_false]
    intro r hr
    simp only [Bool.and_eq_true, decide_eq_true_eq, not_and]
    intro hrk hrd
    exact hfresh r hr hrk (hrd ▸ List.mem_map.mpr ⟨p, hp, rfl⟩)
  have happend : cacheWeatherData store k ps = store ++ ps.map (pointToRow k) :=
    cacheWeatherData_append k ps store hfresh' hnodup
  constructor
  · rw [happend]
    unfold getCachedWeather
    rw [List.filter_append]
    have h1 : store.filter
        (fun r => r.location_key = k && r.date ∈ ps.map (fun p => p.date)) = [] := by
      rw [List.filter_eq_nil_iff]
      intro r hr
      simp only [Bool.and_eq_true, decide_eq_true_eq, not_and]
      intro hrk hrd
      exact hfresh r hr hrk hrd
    have h2 : (ps.map (pointToRow k)).filter
        (fun r => r.location_key = k && r.date ∈ ps.map (fun p => p.date))
        = ps.map (pointToRow k) := by
      rw [List.filter_eq_self]
      intro r hr
      obtain ⟨p, hp, rfl⟩ := List.mem_map.mp hr
      simp only [Bool.and_eq_true, decide_eq_true_eq]
      exact ⟨rfl, List.mem_map.mpr ⟨p, hp, rfl⟩⟩
    rw [h1, h2, List.nil_append]
    rw [foldl_mapSet_append (ps.map (pointToRow k)) [] (by intro r _ e he; cases he) ?_]
    · rw [List.nil_append, List.map_map]
      rfl
    · rw [List.map_map]
      exact hnodup
  · refine cacheWeatherData_conflicts_noop _ k qs ?_
    intro q hq
    rw [List.any_eq_true]
    obtain ⟨p, hp, hpd⟩ := List.mem_map.mp (hqs q hq)
    refine ⟨pointToRow k p, ?_, ?_⟩
    · rw [happend]
      exact List.mem_append_right store (List.mem_map.mpr ⟨p, hp, rfl⟩)
    · simp [pointToRow, hpd]
  
end PhantomTracker
namespace PhantomTracker

/-- A concrete point for exercising the cache: 1970-01-01 (day 0),
sampled at noon UTC (timestamp 43200). -/
def samplePoint : HistoricalWeatherPoint :=
  { date := 0, timestamp := 43200, temperature := 1, feels_like := 1,
    pressure := 1000, humidity := 50, wind_speed := 2,
    weather_description := "w", clouds := 10 }

/-- C5 counterexample: `putMany` then `getMany` does not return the
written point field for field — the stored row has no timestamp column,
so the read-back timestamp is midnight UTC of the date (0), not the
written sampling instant (43200). -/
theorem putMany_getMany_not_identity_counterexample :
    getCachedWeather (cacheWeatherData [] ['k'] [samplePoint]) ['k'] [samplePoint.date]
      = [(samplePoint.date, { samplePoint with timestamp := samplePoint.date * 86400 })] ∧
    samplePoint.timestamp = 43200 ∧
    samplePoint.date * 86400 = 0 ∧
    getCachedWeather (cacheWeatherData [] ['k'] [samplePoint]) ['k'] [samplePoint.date]
      ≠ [(samplePoint.date, samplePoint)] := by
  refine ⟨rfl, rfl, rfl, ?_⟩
  intro heq
  have h1 : getCachedWeather (cacheWeatherData [] ['k'] [samplePoint]) ['k'] [samplePoint.date]
      = [(samplePoint.date, { samplePoint with timestamp := samplePoint.date * 86400 })] := rfl
  rw [h1] at heq
  have h2 := congrArg (fun l => ((l.headD (0, samplePoint)).2.timestamp)) heq
  simp only [List.headD_cons] at h2
  exact absurd h2 (by decide)

/-- C5 witness: two fresh points on an empty store, then a conflicting
rewrite of the first date. -/
theorem putMany_getMany_roundtrip_witness :
    getCachedWeather (cacheWeatherData [] ['k'] [samplePoint, { samplePoint with date := 1 }])
        ['k'] ([samplePoint, { samplePoint with date := 1 }].map (fun p => p.date))
      = [samplePoint, { samplePoint with date := 1 }].map
          (fun p => (p.date, { p with timestamp := p.date * 86400 })) ∧
    cacheWeatherData
        (cacheWeatherData [] ['k'] [samplePoint, { samplePoint with date := 1 }])
        ['k'] [{ samplePoint with temperature := 99 }]
      = cacheWeatherData [] ['k'] [samplePoint, { samplePoint with date := 1 }] :=
  putMany_getMany_roundtrip [] ['k']
    [samplePoint, { samplePoint with date := 1 }] [{ samplePoint with temperature := 99 }]
    (by decide) (by intro r hr; cases hr) (by decide)

end PhantomTracker
namespace PhantomTracker

/-! ## Current-conditions provider clients (weather.ts, geomagnetic,
solar.ts, tidal) and the snapshot assembler (environmental/index.ts) -/

/-- `WeatherData` as produced by `fetchWeatherData`. -/
structure WeatherData where
  temperature : ℚ
  feels_like : ℚ
  pressure : ℚ
  pressure_trend : String
  pressure_change_3h : ℚ
  humidity : ℚ
  weather_condition : String
  weather_description : String
  wind_speed : ℚ
  clouds : ℚ
  visibility : ℚ
  aqi : Option ℚ
  aqi_label : Option String
deriving DecidableEq

/-- The fixed fallback object `getMockWeatherData` of weather.ts. -/
def getMockWeatherData : WeatherData :=
  { temperature := 12.5, feels_like := 10.2, pressure := 1013,
    pressure_trend := "stable", pressure_change_3h := 0, humidity := 65,
    weather_condition := "Clouds", weather_description := "scattered clouds",
    wind_speed := 3.5, clouds := 40, visibility := 10000,
    aqi := none, aqi_label := none }

/-- Parsed shape of the current-weather response body; `weather` entries
are (main, description) pairs. -/
structure OpenWeatherResponse where
  temp : ℚ
  feels_like : ℚ
  pressure : ℚ
  humidity : ℚ
  weather : List (String × String)
  wind_speed : ℚ
  clouds : ℚ
  visibility : ℚ
deriving DecidableEq

/-- The `AQI_LABELS` record of weather.ts. -/
def aqiLabelOf (a : ℚ) : Option String :=
  if a = 1 then some "Good"
  else if a = 2 then some "Fair"
  else if a = 3 then some "Moderate"
  else if a = 4 then some "Poor"
  else if a = 5 then some "Very Poor"
  else none

/-- Embedding of `fetchWeatherData` (weather.ts).  `apiKey` is whether the
API key is configured; the two upstream outcomes are the current-weather
and air-pollution requests.  A missing key, a non-2xx weather status, a
network fault or a malformed weather body all fall back to the fixed mock
object — never to `null`; only the AQI sub-fields degrade to `null` when
the air-pollution branch fails or reports a falsy (0) index. -/
def fetchWeatherData (apiKey : Bool) (weatherRes : UpstreamResult OpenWeatherResponse)
    (aqiRes : UpstreamResult (List ℚ)) : WeatherData :=
  if apiKey = false then getMockWeatherData
  else
    match weatherRes with
    | UpstreamResult.ok w =>
        let aqiPair : Option ℚ × Option String :=
          match aqiRes with
          | UpstreamResult.ok entries =>
              match entries.head? with
              | some a => if a = 0 then (none, none) else (some a, aqiLabelOf a)
              | none => (none, none)
          | _ => (none, none)
        { temperature := (jsRound (w.temp * 10) : ℚ) / 10
          feels_like := (jsRound (w.feels_like * 10) : ℚ) / 10
          pressure := w.pressure
          pressure_trend := "stable"
          pressure_change_3h := 0
          humidity := w.humidity
          weather_condition := ((w.weather.head?).map (fun x => x.1)).getD "Unknown"
          weather_description := ((w.weather.head?).map (fun x => x.2)).getD "Unknown"
          wind_speed := (jsRound (w.wind_speed * 10) : ℚ) / 10
          clouds := w.clouds
          visibility := w.visibility
          aqi := aqiPair.1
          aqi_label := aqiPair.2 }
    | _ => getMockWeatherData

/-- `GeomagneticData` of the geomagnetic client. -/
structure GeomagneticData where
  kp_index : Int
  kp_label : String
  storm_level : String
  solar_wind_speed : Option ℚ
deriving DecidableEq

/-- The `KP_LABELS` record. -/
def kpLabelOf (kp : Int) : Option String :=
  if kp = 0 ∨ kp = 1 ∨ kp = 2 then some "Quiet"
  else if kp = 3 then some "Unsettled"
  else if kp = 4 then some "Active"
  else if kp = 5 then some "Minor Storm"
  else if kp = 6 then some "Moderate Storm"
  else if kp = 7 then some "Strong Storm"
  else if kp = 8 then some "Severe Storm"
  else if kp = 9 then some "Extreme Storm"
  else none

/-- `getStormLevel` of the geomagnetic client. -/
def getStormLevel (kp : Int) : String :=
  if kp < 5 then "G0"
  else if kp = 5 then "G1"
  else if kp = 6 then "G2"
  else if kp = 7 then "G3"
  else if kp = 8 then "G4"
  else "G5"

/-- The fixed fallback object `getMockGeomagneticData`. -/
def getMockGeomagneticData : GeomagneticData :=
  { kp_index := 2, kp_label := "Quiet", storm_level := "G0",
    solar_wind_speed := none }

/-- Embedding of `fetchGeomagneticData`.  The payload is the parsed Kp
column of the NOAA rows (header row included).  Any upstream failure, a
non-array body, or fewer than two rows falls back to the fixed mock
object — never to `null`. -/
def fetchGeomagneticData (res : UpstreamResult (List ℚ)) : GeomagneticData :=
  match res with
  | UpstreamResult.ok rows =>
      if rows.length < 2 then getMockGeomagneticData
      else
        let kp_index := jsRound (rows.getLastD 0)
        { kp_index := kp_index
          kp_label := (kpLabelOf kp_index).getD "Unknown"
          storm_level := getStormLevel kp_index
          solar_wind_speed := none }
  | _ => getMockGeomagneticData

/-- `SolarData`; the `xray_flux` display string is carried as characters. -/
structure SolarData where
  xray_flux : List Char
  xray_class : String
  flare_probability_24h : ℚ
deriving DecidableEq

/-- `toFixed(1)` of the value `n/10`: always one fractional digit. -/
def fmtFixed1 (n : Int) : List Char :=
  let m := n.natAbs
  let body := natToChars (m / 10) ++ '.' :: [digitChar (m % 10)]
  if n < 0 then '-' :: body else body

/-- `classifyXrayFlux`: letter class by fixed power-of-ten thresholds, and
the display string `letter + (flux/threshold).toFixed(1)`. -/
def classifyXrayFlux (flux : ℚ) : String × List Char :=
  if flux < 1/10^7 then ("A", 'A' :: fmtFixed1 (jsRound (flux / (1/10^8) * 10)))
  else if flux < 1/10^6 then ("B", 'B' :: fmtFixed1 (jsRound (flux / (1/10^7) * 10)))
  else if flux < 1/10^5 then ("C", 'C' :: fmtFixed1 (jsRound (flux / (1/10^6) * 10)))
  else if flux < 1/10^4 then ("M", 'M' :: fmtFixed1 (jsRound (flux / (1/10^5) * 10)))
  else ("X", 'X' :: fmtFixed1 (jsRound (flux / (1/10^4) * 10)))

/-- `calculateFlareProbability`: the flare-probability constant per class. -/
def calculateFlareProbability (cls : String) : ℚ :=
  if cls = "A" then 0.05
  else if cls = "B" then 0.1
  else if cls = "C" then 0.2
  else if cls = "M" then 0.4
  else if cls = "X" then 0.7
  else 0.1

/-- Embedding of `fetchSolarData` (solar.ts).  The payload is the flux
series; the latest reading is classified.  Every failure (non-2xx,
network fault, empty or unparseable body, empty array) returns `none`. -/
def fetchSolarData (res : UpstreamResult (List ℚ)) : Option SolarData :=
  match res with
  | UpstreamResult.ok data =>
      if data.isEmpty then none
      else
        let flux := data.getLastD 0
        let cls := classifyXrayFlux flux
        some { xray_flux := cls.2, xray_class := cls.1,
               flare_probability_24h := calculateFlareProbability cls.1 }
  | _ => none

/-- `TidalData`; the `next_high`/`next_low` ISO strings are carried as
the instants they denote (`none` for the empty string). -/
structure TidalData where
  current_height_m : ℚ
  next_high : Option Int
  next_low : Option Int
  tidal_phase : String
deriving DecidableEq

/-- `determineTidalPhase`: rising/falling by the type of the next
predicted event after `now`. -/
def determineTidalPhase (now : Int) (predictions : List (String × Int)) : String :=
  if predictions.length < 2 then "rising"
  else
    match predictions.find? (fun p => now < p.2) with
    | none => "rising"
    | some ev =>
        if ev.1 = "H" then "rising"
        else if ev.1 = "L" then "falling"
        else "rising"

/-- Embedding of `fetchTidalData` (part_004).  The two upstream outcomes
are the water-level and predictions requests; prediction entries are
(type, time) pairs.  If either request fails the client returns `none`;
a missing water-level reading defaults to height 0. -/
def fetchTidalData (now : Int) (wlRes : UpstreamResult (Option ℚ))
    (predRes : UpstreamResult (List (String × Int))) : Option TidalData :=
  match wlRes, predRes with
  | UpstreamResult.ok wl, UpstreamResult.ok preds =>
      let currentHeight := wl.getD 0
      some { current_height_m := (jsRound (currentHeight * 100) : ℚ) / 100
             next_high := (preds.find? (fun p => p.1 = "H")).map (fun p => p.2)
             next_low := (preds.find? (fun p => p.1 = "L")).map (fun p => p.2)
             tidal_phase := determineTidalPhase now preds }
  | _, _ => none

/-- The four provider-sourced fields of the composed snapshot.  The
`lunar` and `temporal` fields of the source type are pure, always-present
computations with no failure mode and are not represented here. -/
structure EnvironmentalData where
  weather : Option WeatherData
  geomagnetic : Option GeomagneticData
  solar : Option SolarData
  tidal : Option TidalData
deriving DecidableEq

/-- Embedding of `fetchAllEnvironmentalData` (environmental/index.ts):
fan out to the four providers and compose the snapshot.  The weather and
geomagnetic branches always produce a value (mock on failure); only the
solar and tidal fields can be `null`. -/
def fetchAllEnvironmentalData (apiKey : Bool)
    (weatherRes : UpstreamResult OpenWeatherResponse)
    (aqiRes : UpstreamResult (List ℚ))
    (geoRes : UpstreamResult (List ℚ))
    (solarRes : UpstreamResult (List ℚ))
    (now : Int) (wlRes : UpstreamResult (Option ℚ))
    (predRes : UpstreamResult (List (String × Int))) : EnvironmentalData :=
  { weather := some (fetchWeatherData apiKey weatherRes aqiRes)
    geomagnetic := some (fetchGeomagneticData geoRes)
    solar := fetchSolarData solarRes
    tidal := fetchTidalData now wlRes predRes }

end PhantomTracker
namespace PhantomTracker

/-- C2 counterexample: with every provider failing (non-2xx statuses and
network faults), the composed snapshot's `weather` and `geomagnetic`
fields are not `null` — they hold the fixed mock objects (temperature
12.5 °C, Kp 2 "Quiet"), i.e. fabricated data, contradicting the claim
that every failed provider surfaces as `null`. -/
theorem snapshot_mock_on_failure_counterexample :
    (fetchAllEnvironmentalData true (UpstreamResult.httpError 500)
        (UpstreamResult.httpError 500) (UpstreamResult.httpError 500)
        (UpstreamResult.httpError 500) 0 UpstreamResult.networkFault
        UpstreamResult.networkFault).weather = some getMockWeatherData ∧
    getMockWeatherData.temperature = 12.5 ∧
    (fetchAllEnvironmentalData true (UpstreamResult.httpError 500)
        (UpstreamResult.httpError 500) (UpstreamResult.httpError 500)
        (UpstreamResult.httpError 500) 0 UpstreamResult.networkFault
        UpstreamResult.networkFault).weather ≠ none ∧
    (fetchAllEnvironmentalData true (UpstreamResult.httpError 500)
        (UpstreamResult.httpError 500) (UpstreamResult.httpError 500)
        (UpstreamResult.httpError 500) 0 UpstreamResult.networkFault
        UpstreamResult.networkFault).geomagnetic = some getMockGeomagneticData ∧
    getMockGeomagneticData.kp_index = 2 ∧
    (fetchAllEnvironmentalData true (UpstreamResult.httpError 500)
        (UpstreamResult.httpError 500) (UpstreamResult.httpError 500)
        (UpstreamResult.httpError 500) 0 UpstreamResult.networkFault
        UpstreamResult.networkFault).geomagnetic ≠ none := by
  refine ⟨rfl, rfl, ?_, rfl, rfl, ?_⟩ <;> simp [fetchAllEnvironmentalData]

/-- C2 (amended): no provider client throws past its boundary, and on any
upstream failure the solar and tidal clients return `null`, so the
composed snapshot has `solar = null` and `tidal = null`; the weather and
geomagnetic clients instead substitute their fixed mock fallback objects,
so the snapshot's `weather` and `geomagnetic` fields are never `null`,
holding mock data when those providers fail. -/
theorem snapshot_failure_behavior (apiKey : Bool)
    (weatherRes : UpstreamResult OpenWeatherResponse)
    (aqiRes : UpstreamResult (List ℚ))
    (geoRes : UpstreamResult (List ℚ))
    (solarRes : UpstreamResult (List ℚ))
    (now : Int) (wlRes : UpstreamResult (Option ℚ))
    (predRes : UpstreamResult (List (String × Int)))
    (hw : ∀ w, weatherRes ≠ UpstreamResult.ok w)
    (hg : ∀ g, geoRes ≠ UpstreamResult.ok g)
    (hs : ∀ s, solarRes ≠ UpstreamResult.ok s)
    (ht : ∀ t, wlRes ≠ UpstreamResult.ok t) :
    (fetchAllEnvironmentalData apiKey weatherRes aqiRes geoRes solarRes now
        wlRes predRes).weather = some getMockWeatherData ∧
    (fetchAllEnvironmentalData apiKey weatherRes aqiRes geoRes solarRes now
        wlRes predRes).geomagnetic = some getMockGeomagneticData ∧
    (fetchAllEnvironmentalData apiKey weatherRes aqiRes geoRes solarRes now
        wlRes predRes).solar = none ∧
    (fetchAllEnvironmentalData apiKey weatherRes aqiRes geoRes solarRes now
        wlRes predRes).tidal = none ∧
    (fetchAllEnvironmentalData apiKey weatherRes aqiRes geoRes solarRes now
        wlRes predRes).weather ≠ none ∧
    (fetchAllEnvironmentalData apiKey weatherRes aqiRes geoRes solarRes now
        wlRes predRes).geomagnetic ≠ none := by
  refine ⟨?_, ?_, ?_, ?_, by simp [fetchAllEnvironmentalData], by simp [fetchAllEnvironmentalData]⟩
  · simp only [fetchAllEnvironmentalData, Option.some_inj]
    unfold fetchWeatherData
    cases weatherRes with
    | ok w => exact absurd rfl (hw w)
    | httpError st => cases apiKey <;> rfl
    | networkFault => cases apiKey <;> rfl
    | malformed => cases apiKey <;> rfl
  · simp only [fetchAllEnvironmentalData, Option.some_inj]
    unfold fetchGeomagneticData
    cases geoRes with
    | ok g => exact absurd rfl (hg g)
    | httpError st => rfl
    | networkFault => rfl
    | malformed => rfl
  · simp only [fetchAllEnvironmentalData]
    unfold fetchSolarData
    cases solarRes with
    | ok s => exact absurd rfl (hs s)
    | httpError st => rfl
    | networkFault => rfl
    | malformed => rfl
  · simp only [fetchAllEnvironmentalData]
    unfold fetchTidalData
    cases wlRes with
    | ok t => exact absurd rfl (ht t)
    | httpError st => cases predRes <;> rfl
    | networkFault => cases predRes <;> rfl
    | malformed => cases predRes <;> rfl

/-- C2 amended-claim witness: every provider fails with HTTP 500 or a
network fault. -/
theorem snapshot_failure_behavior_witness :
    (fetchAllEnvironmentalData true (UpstreamResult.httpError 500)
        (UpstreamResult.httpError 500) (UpstreamResult.httpError 502)
        (UpstreamResult.httpError 503) 0 UpstreamResult.networkFault
        UpstreamResult.malformed).weather = some getMockWeatherData ∧
    (fetchAllEnvironmentalData true (UpstreamResult.httpError 500)
        (UpstreamResult.httpError 500) (UpstreamResult.httpError 502)
        (UpstreamResult.httpError 503) 0 UpstreamResult.networkFault
        UpstreamResult.malformed).geomagnetic = some getMockGeomagneticData ∧
    (fetchAllEnvironmentalData true (UpstreamResult.httpError 500)
        (UpstreamResult.httpError 500) (UpstreamResult.httpError 502)
        (UpstreamResult.httpError 503) 0 UpstreamResult.networkFault
        UpstreamResult.malformed).solar = none ∧
    (fetchAllEnvironmentalData true (UpstreamResult.httpError 500)
        (UpstreamResult.httpError 500) (UpstreamResult.httpError 502)
        (UpstreamResult.httpError 503) 0 UpstreamResult.networkFault
        UpstreamResult.malformed).tidal = none ∧
    (fetchAllEnvironmentalData true (UpstreamResult.httpError 500)
        (UpstreamResult.httpError 500) (UpstreamResult.httpError 502)
        (UpstreamResult.httpError 503) 0 UpstreamResult.networkFault
        UpstreamResult.malformed).weather ≠ none ∧
    (fetchAllEnvironmentalData true (UpstreamResult.httpError 500)
        (UpstreamResult.httpError 500) (UpstreamResult.httpError 502)
        (UpstreamResult.httpError 503) 0 UpstreamResult.networkFault
        UpstreamResult.malformed).geomagnetic ≠ none :=
  snapshot_failure_behavior true (UpstreamResult.httpError 500)
    (UpstreamResult.httpError 500) (UpstreamResult.httpError 502)
    (UpstreamResult.httpError 503) 0 UpstreamResult.networkFault
    UpstreamResult.malformed
    (fun _ h => UpstreamResult.noConfusion h)
    (fun _ h => UpstreamResult.noConfusion h)
    (fun _ h => UpstreamResult.noConfusion h)
    (fun _ h => UpstreamResult.noConfusion h)

end PhantomTracker
namespace PhantomTracker

/-- C7 counterexample: `"foo"` has no numeric fields, yet parsing does
not fail with any `MalformedKey` error — `parseLocationKey` is total and
returns a coordinates value, here with `latitude = NaN` and
`longitude = undefined`. -/
theorem parseLocationKey_no_error_counterexample :
    twoNumericFields ['f', 'o', 'o'] = false ∧
    parseLocationKey ['f', 'o', 'o'] = ⟨JSNum.nan, JSNum.undef⟩ := by
  refine ⟨by decide, by decide⟩

/-- C7 (amended): `parseLocationKey` never fails; for every input that
does not consist of exactly two numeric comma-separated fields it still
returns a coordinates value, in which either a component records the
malformation (`NaN` for a non-numeric field, `undefined` for a missing
second field) or the input had more than two fields, whose surplus is
silently ignored. -/
theorem parseLocationKey_total_behavior (key : List Char)
    (h : twoNumericFields key = false) :
    (parseLocationKey key).latitude = JSNum.nan ∨
    (parseLocationKey key).longitude = JSNum.nan ∨
    (parseLocationKey key).longitude = JSNum.undef ∨
    2 < (splitComma key).length := by
  rcases hsp : splitComma key with _ | ⟨a, _ | ⟨b, rest⟩⟩
  · right; right; left
    simp [parseLocationKey, hsp]
  · right; right; left
    simp [parseLocationKey, hsp]
  · cases rest with
    | nil =>
        unfold twoNumericFields at h
        rw [hsp] at h
        simp only [Bool.and_eq_false_iff] at h
        rcases h with h | h
        · left
          cases hja : jsNumber a with
          | some q => rw [hja] at h; cases h
          | none => simp [parseLocationKey, hsp, hja, jsNumOfOption]
        · right; left
          cases hjb : jsNumber b with
          | some q => rw [hjb] at h; cases h
          | none => simp [parseLocationKey, hsp, hjb, jsNumOfOption]
    | cons c cs =>
        right; right; right
        simp only [hsp, List.length_cons]
        omega

end PhantomTracker
namespace PhantomTracker

/-- C7 amended-claim witness at the input `"foo"`. -/
theorem parseLocationKey_total_behavior_witness :
    (parseLocationKey ['f', 'o', 'o']).latitude = JSNum.nan ∨
    (parseLocationKey ['f', 'o', 'o']).longitude = JSNum.nan ∨
    (parseLocationKey ['f', 'o', 'o']).longitude = JSNum.undef ∨
    2 < (splitComma ['f', 'o', 'o']).length :=
  parseLocationKey_total_behavior ['f', 'o', 'o'] (by decide)

end PhantomTracker
namespace PhantomTracker

/-! ### Digit strings: rendering and parsing are mutually inverse -/

lemma charVal_digitChar {d : Nat} (h : d < 10) : charVal? (digitChar d) = some d := by
  interval_cases d <;> rfl

lemma isDigitChar_digitChar {d : Nat} (h : d < 10) : isDigitChar (digitChar d) = true := by
  unfold isDigitChar
  rw [charVal_digitChar h]
  rfl

lemma natToCharsAux_digits :
    ∀ (fuel n : Nat), ∀ c ∈ natToCharsAux fuel n, isDigitChar c = true := by
  intro fuel
  induction fuel with
  | zero => intro n c hc; cases hc
  | succ fuel ih =>
      intro n c hc
      unfold natToCharsAux at hc
      by_cases hn : n = 0
      · rw [if_pos hn] at hc; cases hc
      · rw [if_neg hn] at hc
        rcases List.mem_append.mp hc with h1 | h1
        · exact ih (n / 10) c h1
        · simp only [List.mem_singleton] at h1
          subst h1
          exact isDigitChar_digitChar (Nat.mod_lt n (by omega))

lemma natToChars_digits (n : Nat) : ∀ c ∈ natToChars n, isDigitChar c = true := by
  intro c hc
  unfold natToChars at hc
  by_cases hn : n = 0
  · rw [if_pos hn] at hc
    simp only [List.mem_singleton] at hc
    subst hc
    rfl
  · rw [if_neg hn] at hc
    exact natToCharsAux_digits n n c hc

lemma natToChars_ne_nil (n : Nat) : natToChars n ≠ [] := by
  unfold natToChars
  by_cases hn : n = 0
  · rw [if_pos hn]; simp
  · rw [if_neg hn]
    cases n with
    | zero => exact absurd rfl hn
    | succ m =>
        show (if m + 1 = 0 then ([] : List Char)
          else natToCharsAux m ((m + 1) / 10) ++ [digitChar ((m + 1) % 10)]) ≠ []
        rw [if_neg hn]
        simp

lemma natToCharsAux_val :
    ∀ (fuel n : Nat), n ≤ fuel → ∀ acc : Nat,
      (natToCharsAux fuel n).foldl (fun a ch => 10 * a + (charVal? ch).getD 0) acc
        = acc * 10 ^ (natToCharsAux fuel n).length + n := by
  intro fuel
  induction fuel with
  | zero =>
      intro n hn acc
      have hz : n = 0 := Nat.le_zero.mp hn
      subst hz
      simp [natToCharsAux]
  | succ fuel ih =>
      intro n hn acc
      unfold natToCharsAux
      by_cases hz : n = 0
      · rw [if_pos hz]; subst hz; simp
      · rw [if_neg hz]
        have hle : n / 10 ≤ fuel := by omega
        rw [List.foldl_append]
        simp only [List.foldl_cons, List.foldl_nil]
        rw [ih (n / 10) hle acc, charVal_digitChar (Nat.mod_lt n (by omega))]
        simp only [Option.getD_some, List.length_append, List.length_cons, List.length_nil]
        have hdm : 10 * (n / 10) + n % 10 = n := Nat.div_add_mod n 10
        calc 10 * (acc * 10 ^ (natToCharsAux fuel (n / 10)).length + n / 10) + n % 10
            = acc * 10 ^ ((natToCharsAux fuel (n / 10)).length + (0 + 1))
              + (10 * (n / 10) + n % 10) := by ring
          _ = acc * 10 ^ ((natToCharsAux fuel (n / 10)).length + (0 + 1)) + n := by
              rw [hdm]
  
lemma charsToNat_natToChars (n : Nat) : charsToNat (natToChars n) = n := by
  unfold charsToNat natToChars
  by_cases hz : n = 0
  · rw [if_pos hz]; subst hz; rfl
  · rw [if_neg hz]
    have := natToCharsAux_val n n le_rfl 0
    simpa using this

end PhantomTracker
namespace PhantomTracker

/-! ### Scanning helpers for the number parser -/

lemma takeWhile_all_append (p : Char → Bool) (A B : List Char)
    (h : ∀ c ∈ A, p c = true) :
    (A ++ B).takeWhile p = A ++ B.takeWhile p := by
  induction A with
  | nil => rfl
  | cons c rest ih =>
      simp only [List.cons_append, List.takeWhile_cons]
      rw [h c (List.mem_cons_self c rest)]
      simp only [if_true, List.cons.injEq, true_and]
      exact ih (fun x hx => h x (List.mem_cons_of_mem c hx))

lemma dropWhile_all_append (p : Char → Bool) (A B : List Char)
    (h : ∀ c ∈ A, p c = true) :
    (A ++ B).dropWhile p = B.dropWhile p := by
  induction A with
  | nil => rfl
  | cons c rest ih =>
      simp only [List.cons_append, List.dropWhile_cons]
      rw [h c (List.mem_cons_self c rest)]
      simp only [if_true]
      exact ih (fun x hx => h x (List.mem_cons_of_mem c hx))

lemma takeWhile_all (p : Char → Bool) (A : List Char) (h : ∀ c ∈ A, p c = true) :
    A.takeWhile p = A := by
  have := takeWhile_all_append p A [] h
  simpa using this

lemma dropWhile_all (p : Char → Bool) (A : List Char) (h : ∀ c ∈ A, p c = true) :
    A.dropWhile p = [] := by
  have := dropWhile_all_append p A [] h
  simpa using this

/-- Digit characters are none of the parser's structural symbols. -/
lemma digit_not_sym {c : Char} (h : isDigitChar c = true) :
    c ≠ '-' ∧ c ≠ '+' ∧ c ≠ '.' ∧ c ≠ ' ' ∧ c ≠ ',' := by
  refine ⟨?_, ?_, ?_, ?_, ?_⟩ <;>
    · intro he
      rw [he] at h
      exact absurd h (by decide)

/-- Trimming leaves a space-free string untouched. -/
lemma trim_spacefree (s : List Char) (h : ∀ c ∈ s, c ≠ ' ') :
    ((s.dropWhile (fun c => c = ' ')).reverse.dropWhile (fun c => c = ' ')).reverse = s := by
  have h1 : s.dropWhile (fun c => decide (c = ' ')) = s := by
    cases s with
    | nil => rfl
    | cons c rest =>
        rw [List.dropWhile_cons]
        rw [decide_eq_false (h c (List.mem_cons_self c rest))]
        simp
  have h2 : s.reverse.dropWhile (fun c => decide (c = ' ')) = s.reverse := by
    cases hs : s.reverse with
    | nil => rfl
    | cons c rest =>
        rw [List.dropWhile_cons]
        have hc : c ∈ s := by
          rw [← List.mem_reverse, hs]
          exact List.mem_cons_self c rest
        rw [decide_eq_false (h c hc)]
        simp
  rw [h1, h2, List.reverse_reverse]

end PhantomTracker
namespace PhantomTracker

lemma isDigitChar_dot : isDigitChar '.' = false := rfl

/-- `Number()` on an optionally signed digit string. -/
lemma jsNumber_signed_digits (neg : Bool) (ds : List Char)
    (hds : ∀ c ∈ ds, isDigitChar c = true) (hne : ds ≠ []) :
    jsNumber ((if neg then ['-'] else []) ++ ds)
      = some ((if neg then (-1 : ℚ) else 1) * charsToNat ds) := by
  obtain ⟨d, ds', rfl⟩ : ∃ d ds', ds = d :: ds' := by
    cases ds with
    | nil => exact absurd rfl hne
    | cons d ds' => exact ⟨d, ds', rfl⟩
  have hd1 : d ≠ '-' := (digit_not_sym (hds d (List.mem_cons_self d ds'))).1
  have hd2 : d ≠ '+' := (digit_not_sym (hds d (List.mem_cons_self d ds'))).2.1
  have hsign : ¬(d = '-' ∨ d = '+') := by
    rintro (h | h)
    · exact hd1 h
    · exact hd2 h
  cases neg with
  | false =>
      have hsp : ∀ c ∈ d :: ds', c ≠ ' ' := by
        intro c hc
        exact (digit_not_sym (hds c hc)).2.2.2.1
      show jsNumber ([] ++ d :: ds') = some (1 * (charsToNat (d :: ds') : ℚ))
      rw [List.nil_append]
      unfold jsNumber
      rw [trim_spacefree _ hsp]
      simp only [List.isEmpty_cons, Bool.false_eq_true, if_false, List.headD_cons,
        if_neg hd1, if_neg hsign, takeWhile_all _ _ hds, dropWhile_all _ _ hds,
        List.isEmpty_nil, if_true]
  | true =>
      have hsp : ∀ c ∈ '-' :: d :: ds', c ≠ ' ' := by
        intro c hc
        rcases List.mem_cons.mp hc with h1 | h1
        · subst h1; decide
        · exact (digit_not_sym (hds c h1)).2.2.2.1
      show jsNumber (['-'] ++ d :: ds') = some ((-1 : ℚ) * (charsToNat (d :: ds') : ℚ))
      rw [show (['-'] : List Char) ++ d :: ds' = '-' :: d :: ds' from rfl]
      unfold jsNumber
      rw [trim_spacefree _ hsp]
      simp only [List.isEmpty_cons, Bool.false_eq_true, if_false, List.headD_cons,
        List.tail_cons, eq_self_iff_true, true_or, if_true,
        takeWhile_all _ _ hds, dropWhile_all _ _ hds, List.isEmpty_nil]

end PhantomTracker
namespace PhantomTracker

/-- `Number()` on an optionally signed digit string with a fraction part. -/
lemma jsNumber_signed_frac (neg : Bool) (ds fs : List Char)
    (hds : ∀ c ∈ ds, isDigitChar c = true) (hfs : ∀ c ∈ fs, isDigitChar c = true)
    (hdne : ds ≠ []) :
    jsNumber ((if neg then ['-'] else []) ++ ds ++ '.' :: fs)
      = some ((if neg then (-1 : ℚ) else 1)
          * ((charsToNat ds : ℚ) + (charsToNat fs : ℚ) / 10 ^ fs.length)) := by
  obtain ⟨d, ds', rfl⟩ : ∃ d ds', ds = d :: ds' := by
    cases ds with
    | nil => exact absurd rfl hdne
    | cons d ds' => exact ⟨d, ds', rfl⟩
  have hd1 : d ≠ '-' := (digit_not_sym (hds d (List.mem_cons_self d ds'))).1
  have hd2 : d ≠ '+' := (digit_not_sym (hds d (List.mem_cons_self d ds'))).2.1
  have hsign : ¬(d = '-' ∨ d = '+') := by
    rintro (h | h)
    · exact hd1 h
    · exact hd2 h
  have h1 : ('.' :: fs).takeWhile isDigitChar = [] := by
    rw [List.takeWhile_cons, isDigitChar_dot]
    simp
  have h2 : ('.' :: fs).dropWhile isDigitChar = '.' :: fs := by
    rw [List.dropWhile_cons, isDigitChar_dot]
    simp
  have htk : (d :: (ds' ++ '.' :: fs)).takeWhile isDigitChar = d :: ds' := by
    have h0 := takeWhile_all_append isDigitChar (d :: ds') ('.' :: fs) hds
    rw [h1, List.append_nil] at h0
    simpa [List.cons_append] using h0
  have hdp : (d :: (ds' ++ '.' :: fs)).dropWhile isDigitChar = '.' :: fs := by
    have h0 := dropWhile_all_append isDigitChar (d :: ds') ('.' :: fs) hds
    rw [h2] at h0
    simpa [List.cons_append] using h0
  have hfs0 : fs.dropWhile isDigitChar = [] := dropWhile_all _ _ hfs
  have hfs1 : fs.takeWhile isDigitChar = fs := takeWhile_all _ _ hfs
  cases neg with
  | false =>
      have hsp : ∀ c ∈ d :: (ds' ++ '.' :: fs), c ≠ ' ' := by
        intro c hc
        rcases List.mem_cons.mp hc with hh | hh
        · subst hh
          exact (digit_not_sym (hds c (List.mem_cons_self c ds'))).2.2.2.1
        · rcases List.mem_append.mp hh with h3 | h3
          · exact (digit_not_sym (hds c (List.mem_cons_of_mem d h3))).2.2.2.1
          · rcases List.mem_cons.mp h3 with h4 | h4
            · subst h4; decide
            · exact (digit_not_sym (hfs c h4)).2.2.2.1
      show jsNumber ([] ++ (d :: ds') ++ '.' :: fs)
          = some (1 * ((charsToNat (d :: ds') : ℚ) + (charsToNat fs : ℚ) / 10 ^ fs.length))
      rw [List.nil_append, show (d :: ds') ++ '.' :: fs = d :: (ds' ++ '.' :: fs) from rfl]
      unfold jsNumber
      rw [trim_spacefree _ hsp]
      simp only [List.isEmpty_cons, Bool.false_eq_true, if_false, List.headD_cons,
        if_neg hd1, if_neg hsign, htk, hdp, List.tail_cons, hfs0, hfs1,
        List.isEmpty_nil, eq_self_iff_true, true_and, and_true, false_and, if_true]
  | true =>
      have hsp : ∀ c ∈ '-' :: d :: (ds' ++ '.' :: fs), c ≠ ' ' := by
        intro c hc
        rcases List.mem_cons.mp hc with hh | hh
        · subst hh; decide
        · rcases List.mem_cons.mp hh with h3 | h3
          · subst h3
            exact (digit_not_sym (hds c (List.mem_cons_self c ds'))).2.2.2.1
          · rcases List.mem_append.mp h3 with h4 | h4
            · exact (digit_not_sym (hds c (List.mem_cons_of_mem d h4))).2.2.2.1
            · rcases List.mem_cons.mp h4 with h5 | h5
              · subst h5; decide
              · exact (digit_not_sym (hfs c h5)).2.2.2.1
      show jsNumber (['-'] ++ (d :: ds') ++ '.' :: fs)
          = some ((-1 : ℚ) * ((charsToNat (d :: ds') : ℚ) + (charsToNat fs : ℚ) / 10 ^ fs.length))
      rw [show (['-'] : List Char) ++ (d :: ds') ++ '.' :: fs
          = '-' :: d :: (ds' ++ '.' :: fs) from rfl]
      unfold jsNumber
      rw [trim_spacefree _ hsp]
      simp only [List.isEmpty_cons, Bool.false_eq_true, if_false, List.headD_cons,
        List.tail_cons, eq_self_iff_true, true_or, if_true, htk, hdp, hfs0, hfs1,
        List.isEmpty_nil, true_and, and_true, false_and]

end PhantomTracker
namespace PhantomTracker

/-- Reading back the rendered centi-value: `Number` of `fmtCenti n` is
exactly `n/100`. -/
lemma jsNumber_fmtCenti (n : Int) : jsNumber (fmtCenti n) = some ((n : ℚ) / 100) := by
  have hmn : ((n.natAbs : ℤ) : ℚ) = |(n : ℚ)| := by
    push_cast [Int.cast_natAbs]
    rfl
  by_cases hfr : n.natAbs % 100 = 0
  · have hfmt : fmtCenti n
        = (if decide (n < 0) then ['-'] else []) ++ natToChars (n.natAbs / 100) := by
      unfold fmtCenti
      by_cases hn : n < 0 <;> simp [hn, hfr]
    rw [hfmt, jsNumber_signed_digits _ _ (natToChars_digits _) (natToChars_ne_nil _),
      charsToNat_natToChars]
    congr 1
    have h100 : 100 * (n.natAbs / 100 : ℤ) = n.natAbs := by omega
    by_cases hn : n < 0
    · rw [if_pos (by simp [hn] : decide (n < 0) = true)]
      have : ((n.natAbs / 100 : ℕ) : ℚ) * 100 = -(n : ℚ) := by
        have h1 : ((n.natAbs / 100 : ℕ) : ℤ) * 100 = -n := by
          omega
        calc ((n.natAbs / 100 : ℕ) : ℚ) * 100
            = ((((n.natAbs / 100 : ℕ) : ℤ) * 100 : ℤ) : ℚ) := by norm_cast
          _ = ((-n : ℤ) : ℚ) := by rw [h1]
          _ = -(n : ℚ) := by norm_cast
      rw [eq_div_iff (by norm_num : (100 : ℚ) ≠ 0)]
      rw [neg_one_mul, neg_mul, this]
      ring
    · rw [if_neg (by simp [hn] : ¬decide (n < 0) = true)]
      have : ((n.natAbs / 100 : ℕ) : ℚ) * 100 = (n : ℚ) := by
        have h1 : ((n.natAbs / 100 : ℕ) : ℤ) * 100 = n := by
          omega
        calc ((n.natAbs / 100 : ℕ) : ℚ) * 100
            = ((((n.natAbs / 100 : ℕ) : ℤ) * 100 : ℤ) : ℚ) := by norm_cast
          _ = ((n : ℤ) : ℚ) := by rw [h1]
          _ = (n : ℚ) := by norm_cast
      rw [eq_div_iff (by norm_num : (100 : ℚ) ≠ 0), one_mul, this]
  · -- the fractional part is present: three rendering shapes
    have hfrlt : n.natAbs % 100 < 100 := Nat.mod_lt _ (by omega)
    have hval : ∀ X : ℚ, X = ((n.natAbs % 100 : ℕ) : ℚ) / 100 →
        (if decide (n < 0) then (-1 : ℚ) else 1)
            * (((n.natAbs / 100 : ℕ) : ℚ) + X) = (n : ℚ) / 100 := by
      intro X hX
      subst hX
      have key : ((n.natAbs / 100 : ℕ) : ℚ) * 100 + ((n.natAbs % 100 : ℕ) : ℚ)
          = ((n.natAbs : ℕ) : ℚ) := by
        have h1 : ((n.natAbs / 100 : ℕ) : ℤ) * 100 + ((n.natAbs % 100 : ℕ) : ℤ)
            = (n.natAbs : ℤ) := by omega
        calc ((n.natAbs / 100 : ℕ) : ℚ) * 100 + ((n.natAbs % 100 : ℕ) : ℚ)
            = ((((n.natAbs / 100 : ℕ) : ℤ) * 100 + ((n.natAbs % 100 : ℕ) : ℤ) : ℤ) : ℚ) := by simp only [Int.cast_add, Int.cast_mul, Int.cast_natCast, Int.cast_ofNat]
          _ = (((n.natAbs : ℤ) : ℤ) : ℚ) := by rw [h1]
          _ = ((n.natAbs : ℕ) : ℚ) := by simp only [Int.cast_natCast]
      by_cases hn : n < 0
      · rw [if_pos (by simp [hn] : decide (n < 0) = true)]
        have habs : ((n.natAbs : ℕ) : ℚ) = -(n : ℚ) := by
          have h2 : ((n.natAbs : ℕ) : ℤ) = -n := by omega
          calc ((n.natAbs : ℕ) : ℚ) = (((n.natAbs : ℕ) : ℤ) : ℚ) := by simp only [Int.cast_natCast]
            _ = ((-n : ℤ) : ℚ) := by rw [h2]
            _ = -(n : ℚ) := by simp only [Int.cast_neg]
        rw [eq_div_iff (by norm_num : (100 : ℚ) ≠ 0)]
        field_simp
        linarith [key, habs]
      · rw [if_neg (by simp [hn] : ¬decide (n < 0) = true)]
        have habs : ((n.natAbs : ℕ) : ℚ) = (n : ℚ) := by
          have h2 : ((n.natAbs : ℕ) : ℤ) = n := by omega
          calc ((n.natAbs : ℕ) : ℚ) = (((n.natAbs : ℕ) : ℤ) : ℚ) := by simp only [Int.cast_natCast]
            _ = ((n : ℤ) : ℚ) := by rw [h2]
            _ = (n : ℚ) := rfl
        rw [eq_div_iff (by norm_num : (100 : ℚ) ≠ 0)]
        field_simp
        linarith [key, habs]
    by_cases h10 : n.natAbs % 100 % 10 = 0
    · -- one fractional digit: fr/10
      have hfsd : ∀ c ∈ [digitChar (n.natAbs % 100 / 10)], isDigitChar c = true := by
        intro c hc
        simp only [List.mem_singleton] at hc
        subst hc
        exact isDigitChar_digitChar (by omega)
      have hfmt : fmtCenti n = (if decide (n < 0) then ['-'] else [])
          ++ natToChars (n.natAbs / 100) ++ '.' :: [digitChar (n.natAbs % 100 / 10)] := by
        unfold fmtCenti
        by_cases hn : n < 0 <;> simp [hn, hfr, h10]
      rw [hfmt, jsNumber_signed_frac _ _ _ (natToChars_digits _) hfsd (natToChars_ne_nil _),
        charsToNat_natToChars]
      congr 1
      refine hval _ ?_
      have hc : charsToNat [digitChar (n.natAbs % 100 / 10)] = n.natAbs % 100 / 10 := by
        simp [charsToNat, charVal_digitChar (show n.natAbs % 100 / 10 < 10 by omega)]
      rw [hc]
      have h1 : ((n.natAbs % 100 / 10 : ℕ) : ℚ) * 10 = ((n.natAbs % 100 : ℕ) : ℚ) := by
        have h2 : ((n.natAbs % 100 / 10 : ℕ) : ℤ) * 10 = ((n.natAbs % 100 : ℕ) : ℤ) := by
          omega
        calc ((n.natAbs % 100 / 10 : ℕ) : ℚ) * 10
            = ((((n.natAbs % 100 / 10 : ℕ) : ℤ) * 10 : ℤ) : ℚ) := by simp only [Int.cast_mul, Int.cast_natCast, Int.cast_ofNat]
          _ = (((n.natAbs % 100 : ℕ) : ℤ) : ℚ) := by rw [h2]
          _ = ((n.natAbs % 100 : ℕ) : ℚ) := by simp only [Int.cast_natCast]
      rw [List.length_singleton, pow_one]
      rw [div_eq_div_iff (by norm_num : (10 : ℚ) ≠ 0) (by norm_num : (100 : ℚ) ≠ 0)]
      linarith [h1]
    · by_cases hlt : n.natAbs % 100 < 10
      · -- leading-zero shape: '0' then the digit
        have hfsd : ∀ c ∈ ['0', digitChar (n.natAbs % 100)], isDigitChar c = true := by
          intro c hc
          rcases List.mem_cons.mp hc with h1 | h1
          · subst h1; rfl
          · simp only [List.mem_singleton] at h1
            subst h1
            exact isDigitChar_digitChar (by omega)
        have hfmt : fmtCenti n = (if decide (n < 0) then ['-'] else [])
            ++ natToChars (n.natAbs / 100) ++ '.' :: ['0', digitChar (n.natAbs % 100)] := by
          unfold fmtCenti
          by_cases hn : n < 0 <;> simp [hn, hfr, h10, hlt]
        rw [hfmt, jsNumber_signed_frac _ _ _ (natToChars_digits _) hfsd (natToChars_ne_nil _),
          charsToNat_natToChars]
        congr 1
        refine hval _ ?_
        have hc : charsToNat ['0', digitChar (n.natAbs % 100)] = n.natAbs % 100 := by
          simp [charsToNat, charVal_digitChar (show n.natAbs % 100 < 10 from hlt),
            show charVal? '0' = some 0 from rfl]
        rw [hc]
        norm_num
      · -- two-digit fraction
        have hfsd : ∀ c ∈ [digitChar (n.natAbs % 100 / 10), digitChar (n.natAbs % 100 % 10)],
            isDigitChar c = true := by
          intro c hc
          rcases List.mem_cons.mp hc with h1 | h1
          · subst h1
            exact isDigitChar_digitChar (by omega)
          · simp only [List.mem_singleton] at h1
            subst h1
            exact isDigitChar_digitChar (by omega)
        have hfmt : fmtCenti n = (if decide (n < 0) then ['-'] else [])
            ++ natToChars (n.natAbs / 100)
            ++ '.' :: [digitChar (n.natAbs % 100 / 10), digitChar (n.natAbs % 100 % 10)] := by
          unfold fmtCenti
          by_cases hn : n < 0 <;> simp [hn, hfr, h10, hlt]
        rw [hfmt, jsNumber_signed_frac _ _ _ (natToChars_digits _) hfsd (natToChars_ne_nil _),
          charsToNat_natToChars]
        congr 1
        refine hval _ ?_
        have hc : charsToNat [digitChar (n.natAbs % 100 / 10), digitChar (n.natAbs % 100 % 10)]
            = n.natAbs % 100 := by
          have hx : n.natAbs % 100 / 10 < 10 := by omega
          have hy : n.natAbs % 100 % 10 < 10 := by omega
          simp [charsToNat, charVal_digitChar hx, charVal_digitChar hy]
          omega
        rw [hc]
        norm_num

end PhantomTracker
namespace PhantomTracker

/-! ### Splitting the key and the full round trip -/

lemma fmtCenti_no_comma (n : Int) : ∀ c ∈ fmtCenti n, c ≠ ',' := by
  intro c hc
  unfold fmtCenti at hc
  have hbody : ∀ x ∈ (if n.natAbs % 100 = 0 then natToChars (n.natAbs / 100)
      else if n.natAbs % 100 % 10 = 0 then
        natToChars (n.natAbs / 100) ++ '.' :: [digitChar (n.natAbs % 100 / 10)]
      else if n.natAbs % 100 < 10 then
        natToChars (n.natAbs / 100) ++ '.' :: ['0', digitChar (n.natAbs % 100)]
      else natToChars (n.natAbs / 100)
        ++ '.' :: [digitChar (n.natAbs % 100 / 10), digitChar (n.natAbs % 100 % 10)]),
      x ≠ ',' := by
    intro x hx
    split_ifs at hx with h1 h2 h3
    · exact (digit_not_sym (natToChars_digits _ x hx)).2.2.2.2
    all_goals
      rcases List.mem_append.mp hx with h4 | h4
      · exact (digit_not_sym (natToChars_digits _ x h4)).2.2.2.2
      · rcases List.mem_cons.mp h4 with h5 | h5
        · subst h5; decide
        · first
          | (rcases List.mem_cons.mp h5 with h6 | h6
             · subst h6
               first
                 | exact (digit_not_sym (isDigitChar_digitChar (by omega))).2.2.2.2
                 | decide
             · first
                 | (simp only [List.mem_singleton] at h6
                    subst h6
                    exact (digit_not_sym (isDigitChar_digitChar (by omega))).2.2.2.2)
                 | cases h6)
  split_ifs at hc with hneg
  · rcases List.mem_cons.mp hc with h0 | h0
    · subst h0; decide
    · exact hbody c h0
  · exact hbody c hc

end PhantomTracker
namespace PhantomTracker

lemma splitComma_no_comma (A : List Char) (h : ∀ c ∈ A, c ≠ ',') :
    splitComma A = [A] := by
  induction A with
  | nil => rfl
  | cons c rest ih =>
      unfold splitComma
      rw [if_neg (h c (List.mem_cons_self c rest))]
      rw [ih (fun x hx => h x (List.mem_cons_of_mem c hx))]

lemma splitComma_append (A B : List Char) (h : ∀ c ∈ A, c ≠ ',') :
    splitComma (A ++ ',' :: B) = A :: splitComma B := by
  induction A with
  | nil => simp [splitComma]
  | cons c rest ih =>
      simp only [List.cons_append, splitComma, List.append_eq]
      rw [if_neg (h c (List.mem_cons_self c rest)),
        ih (fun x hx => h x (List.mem_cons_of_mem c hx))]

/-- Parsing a generated key recovers both rounded axes exactly. -/
lemma parseLocationKey_getLocationKey (c : Coordinates) :
    parseLocationKey (getLocationKey c)
      = ⟨JSNum.num ((jsRound (c.latitude * 100) : ℚ) / 100),
         JSNum.num ((jsRound (c.longitude * 100) : ℚ) / 100)⟩ := by
  unfold getLocationKey parseLocationKey
  rw [splitComma_append _ _ (fmtCenti_no_comma _),
    splitComma_no_comma _ (fmtCenti_no_comma _)]
  simp [jsNumber_fmtCenti, jsNumOfOption]

/-- Rounding to centidegrees moves a coordinate by at most `1/200`. -/
lemma jsRound_centi_close (x : ℚ) : |(jsRound (x * 100) : ℚ) / 100 - x| ≤ 1 / 100 := by
  unfold jsRound
  have h1 : (⌊x * 100 + 1 / 2⌋ : ℚ) ≤ x * 100 + 1 / 2 := Int.floor_le _
  have h2 : x * 100 + 1 / 2 < ⌊x * 100 + 1 / 2⌋ + 1 := Int.lt_floor_add_one _
  rw [abs_le]
  constructor <;> linarith

end PhantomTracker
namespace PhantomTracker

/-- C6: for all coordinates, parsing the generated location key recovers
each axis to within 0.01 degrees; and concretely, (37.77, -122.42)
produces the key "37.77,-122.42", which parses back to exactly
(37.77, -122.42). -/
theorem getLocationKey_parse_roundtrip :
    (∀ lat lon : ℚ, ∃ la lo : ℚ,
        parseLocationKey (getLocationKey ⟨lat, lon⟩) = ⟨JSNum.num la, JSNum.num lo⟩ ∧
        |la - lat| ≤ 1 / 100 ∧ |lo - lon| ≤ 1 / 100) ∧
    getLocationKey ⟨3777/100, -12242/100⟩
      = ['3', '7', '.', '7', '7', ',', '-', '1', '2', '2', '.', '4', '2'] ∧
    parseLocationKey ['3', '7', '.', '7', '7', ',', '-', '1', '2', '2', '.', '4', '2']
      = ⟨JSNum.num (3777/100), JSNum.num (-12242/100)⟩ := by
  have ha : jsRound ((3777/100 : ℚ) * 100) = 3777 := by
    norm_num [jsRound]
  have hb : jsRound ((-12242/100 : ℚ) * 100) = -12242 := by
    norm_num [jsRound]
  have hkey : getLocationKey ⟨3777/100, -12242/100⟩
      = ['3', '7', '.', '7', '7', ',', '-', '1', '2', '2', '.', '4', '2'] := by
    show fmtCenti (jsRound ((3777/100 : ℚ) * 100))
        ++ ',' :: fmtCenti (jsRound ((-12242/100 : ℚ) * 100))
      = ['3', '7', '.', '7', '7', ',', '-', '1', '2', '2', '.', '4', '2']
    rw [ha, hb]
    decide
  refine ⟨?_, hkey, ?_⟩
  · intro lat lon
    exact ⟨_, _, parseLocationKey_getLocationKey ⟨lat, lon⟩,
      jsRound_centi_close lat, jsRound_centi_close lon⟩
  · rw [← hkey, parseLocationKey_getLocationKey]
    simp only [ha, hb, JSCoordinates.mk.injEq, JSNum.num.injEq]
    constructor <;> norm_num

end PhantomTracker
